import Mathlib

/-!
# Login attempt guard

A shallow embedding of `login` from
`src/api/components/authentication/authentication-controller.js` together with
the module-level table `loginAttempts`, and the properties of that handler.

Modelling choices, each taken from the source text:

* `loginAttempts` is the object literal `{}` of line 5, read and written as
  `loginAttempts[email]`.  A property read goes through the prototype chain,
  so a key that has no record of its own can still read as a member of
  `Object.prototype`.  `LoginAttempts.read` is that read, and the state holds
  what it depends on: the records, and the two things the handler can change
  on the chain.  An assignment to the key `__proto__` calls the accessor of
  `Object.prototype` and makes the assigned record the prototype of the table;
  lines 50 and 51 run on `Object.prototype` itself leave it a `count` of `NaN`
  and a `lastAttempt`.  Keys are strings.
* `count` of a record is only ever written as `0`, `1` or by `count++`, so it
  is a natural number.  The quotient of line 22 is taken in the rationals; the
  double of the source compares with `30` the same way, the difference of two
  millisecond readings being an exact integer.
* `new Date()` is a reading of the wall clock in milliseconds.  The handler
  reads the clock at four program points; the readings of one call are
  gathered in `Clock`, and nothing is assumed about how they relate.
* `authenticationServices.checkLoginCredentials` lives outside this file of the
  source; it is a parameter of `login`.  Awaiting it yields a truthy value, a
  falsy value, or a rejection.
* `errorResponder` and `errorTypes` come from `core/errors`; the error object
  is embedded as the record of the arguments it is built from.
* The module has no `use strict`: a write to a property of a number is
  dropped.
* A handler runs without interruption up to its `await` and again from there
  to its end.  `login` runs both parts of one request back to back; `Pool`
  runs the parts of several requests in any order.
-/

namespace Authentication

/-- One entry of `loginAttempts`: the object `{ count, lastAttempt }`.
`lastAttempt` is a `Date` (milliseconds since the epoch) or `null`. -/
structure Attempt where
  count : Nat
  lastAttempt : Option Int
deriving DecidableEq, Repr

/-- A value read as `loginAttempts[email].count`: a number, `NaN`, or
`undefined`. -/
inductive Count where
  | num (n : Nat)
  | nan
  | undefined
deriving DecidableEq, Repr

instance : Coe Nat Count := ⟨Count.num⟩

instance (n : Nat) : OfNat Count n := ⟨Count.num n⟩

/-- The sum of two such values, as `+` forms it: `NaN` unless both are
numbers. -/
instance : Add Count :=
  ⟨fun a b => match a, b with
    | .num m, .num n => .num (m + n)
    | _, _ => .nan⟩

/-- The object `loginAttempts` and what its reads depend on. -/
structure LoginAttempts where
  /-- The record stored under each key.  Under `__proto__` it is the record
  that an assignment to that key has made the prototype of the table. -/
  records : String → Option Attempt
  /-- The property `lastAttempt` of `Object.prototype`, once lines 50 and 51
  have run on `Object.prototype`; its `count` is then `NaN`. -/
  prototypeStamp : Option Int

instance : CoeFun LoginAttempts (fun _ => String → Option Attempt) :=
  ⟨LoginAttempts.records⟩

/-- The initial value `const loginAttempts = {}`. -/
def LoginAttempts.empty : LoginAttempts :=
  { records := fun _ => none, prototypeStamp := none }

/-- The assignment `loginAttempts[email] = a`.  Every key the handler can
find on the chain is a writable data property, which the assignment shadows
with a property of the table, or the accessor `__proto__`, whose setter
replaces the prototype. -/
def LoginAttempts.set (t : LoginAttempts) (email : String) (a : Attempt) : LoginAttempts :=
  { t with records := fun k => if k = email then some a else t.records k }

/-- The names of the members of `Object.prototype` that are functions. -/
def objectPrototypeFunctions : List String :=
  ["constructor", "hasOwnProperty", "isPrototypeOf", "propertyIsEnumerable", "toLocaleString",
   "toString", "valueOf", "__defineGetter__", "__defineSetter__", "__lookupGetter__",
   "__lookupSetter__"]

/-- The keys that can read as something other than a record of their own or
`undefined`: the members of `Object.prototype`, and the two field names of a
record, which the table inherits from a record made its prototype or from
`Object.prototype` once lines 50 and 51 have run on it. -/
def inheritedNames : List String :=
  "__proto__" :: "count" :: "lastAttempt" :: objectPrototypeFunctions

/-- What `loginAttempts[email]` reads. -/
inductive Slot where
  /-- A falsy value: `undefined`, or an inherited `0`, `NaN` or `null`. -/
  | missing
  /-- A record `{ count, lastAttempt }`. -/
  | record (a : Attempt)
  /-- The object `Object.prototype` itself, read through `__proto__`. -/
  | prototype
  /-- An inherited function or `Date`. -/
  | object
  /-- An inherited number other than `0` and `NaN`. -/
  | number
deriving DecidableEq, Repr

/-- The read `loginAttempts[email]`: the record under the key if there is one,
and otherwise what the prototype chain gives. -/
def LoginAttempts.read (t : LoginAttempts) (email : String) : Slot :=
  match t.records email with
  | some a => .record a
  | none =>
    if email = "__proto__" then .prototype
    else if email = "count" then
      match t.records "__proto__" with
      | some r => if r.count = 0 then .missing else .number
      | none => .missing
    else if email = "lastAttempt" then
      match t.records "__proto__" with
      | some r => if r.lastAttempt.isSome then .object else .missing
      | none => if t.prototypeStamp.isSome then .object else .missing
    else if email ∈ objectPrototypeFunctions then .object
    else .missing

/-- The two members of `errorTypes` used by the handler. -/
inductive ErrorType where
  | FORBIDDEN
  | INVALID_CREDENTIALS
deriving DecidableEq, Repr

/-- The value built by `errorResponder(type, message, { timestamp, attemptCount })`. -/
structure ResponderError where
  errorType : ErrorType
  message : String
  timestamp : Int
  attemptCount : Count
deriving DecidableEq, Repr

/-- The clock readings of one call of `login`, by program point. -/
structure Clock where
  /-- Line 20, `const currentTime = new Date()`. -/
  currentTime : Int
  /-- Line 32, `new Date().toISOString()` of the lockout error. -/
  lockedStamp : Int
  /-- Lines 48 and 51, `lastAttempt: new Date()`. -/
  failedAt : Int
  /-- Line 58, `new Date().toISOString()` of the credentials error. -/
  failedStamp : Int
deriving DecidableEq, Repr

/-- What the handler hands back: `response.status(200).json(body)`, or
`next(error)` with an error built by `errorResponder`, or `next(error)` with
an error thrown by `checkLoginCredentials`. -/
inductive Reply (P E : Type) where
  | json (status : Nat) (body : P)
  | next (error : ResponderError)
  | nextThrown (error : E)
deriving DecidableEq, Repr

/-- The result of awaiting `checkLoginCredentials(email, password)`:
`.ok (some p)` is a truthy value `p`, `.ok none` a falsy value, and
`.error e` a rejection with `e`. -/
abbrev Verdict (P E : Type) := Except E (Option P)

/-- The numeric value of `lastAttempt` in `currentTime - lastAttempt`:
a `Date` gives its milliseconds, `null` gives `0`. -/
def toNumber (lastAttempt : Option Int) : Int := lastAttempt.getD 0

/-- Line 22, `(currentTime - lastAttemptTime) / (1000 * 60)`, in minutes. -/
def timeDiff (currentTime : Int) (lastAttemptTime : Option Int) : ℚ :=
  ((currentTime - toNumber lastAttemptTime : Int) : ℚ) / (1000 * 60)

/-- Lines 19 to 37: the check made before the verifier is called.  The result
is the thrown lockout error, or the table with which the handler goes on.
What is read is falsy, or its `count` is a number, `NaN` or `undefined`; only
a number can be `>= 5`, and only a record has one. -/
def lockCheck (t : LoginAttempts) (email : String) (clock : Clock) :
    Except ResponderError LoginAttempts :=
  match t.read email with
  | .record a =>
    if a.count ≥ 5 then
      if timeDiff clock.currentTime a.lastAttempt ≥ 30 then
        .ok (t.set email { count := 0, lastAttempt := none })
      else
        .error { errorType := .FORBIDDEN
                 message := "Too many failed login attempts"
                 timestamp := clock.lockedStamp
                 attemptCount := a.count }
    else .ok t
  | _ => .ok t

/-- Lines 47 to 52 and the read of `count` at line 59: the table after a
failed credential check and the `attemptCount` of the error.  A falsy read
gets a new record.  A record is counted up.  On anything else `count++` gives
`NaN` and no record is made: on `Object.prototype` the two writes stay, on a
function or a `Date` they land on that object, and on a number they are
dropped, so that `count` reads as `Object.prototype` has it. -/
def recordFailure (t : LoginAttempts) (email : String) (clock : Clock) :
    LoginAttempts × Count :=
  match t.read email with
  | .missing => (t.set email { count := 1, lastAttempt := some clock.failedAt }, 1)
  | .record a =>
    (t.set email { count := a.count + 1, lastAttempt := some clock.failedAt }, .num (a.count + 1))
  | .prototype => ({ t with prototypeStamp := some clock.failedAt }, .nan)
  | .object => (t, .nan)
  | .number => (t, if t.prototypeStamp.isSome then .nan else .undefined)

/-- Lines 45 to 70: what the handler does once the verifier has settled. -/
def afterCheck {P E : Type} (t : LoginAttempts) (email : String) (clock : Clock) :
    Verdict P E → LoginAttempts × Reply P E
  | .error e => (t, .nextThrown e)
  | .ok none =>
    let r := recordFailure t email clock
    (r.1,
     .next { errorType := .INVALID_CREDENTIALS
             message := "Wrong email or password"
             timestamp := clock.failedStamp
             attemptCount := r.2 })
  | .ok (some loginSuccess) =>
    (t.set email { count := 0, lastAttempt := none }, .json 200 loginSuccess)

/-- The state after one call of `login` and what the call did. -/
structure Outcome (P E : Type) where
  /-- The table `loginAttempts` after the call. -/
  loginAttempts : LoginAttempts
  /-- The argument pairs with which `checkLoginCredentials` was called. -/
  verifierCalls : List (String × String)
  /-- The response sent or the error passed to `next`. -/
  reply : Reply P E

/-- The handler `login`, lines 14 to 71, run from table `t` on the request body
`{ email, password }`. -/
def login {P E : Type} (checkLoginCredentials : String → String → Verdict P E)
    (t : LoginAttempts) (email password : String) (clock : Clock) : Outcome P E :=
  match lockCheck t email clock with
  | .error err => { loginAttempts := t, verifierCalls := [], reply := .next err }
  | .ok t1 =>
    let r := afterCheck t1 email clock (checkLoginCredentials email password)
    { loginAttempts := r.1, verifierCalls := [(email, password)], reply := r.2 }

/-- One call of `login` in a run: the verifier as it stands at that time, the
request body and the clock readings. -/
structure Call (P E : Type) where
  checkLoginCredentials : String → String → Verdict P E
  email : String
  password : String
  clock : Clock

/-- The outcome of call `c` from table `t`. -/
def Call.outcome {P E : Type} (c : Call P E) (t : LoginAttempts) : Outcome P E :=
  login c.checkLoginCredentials t c.email c.password c.clock

/-- The table after the calls of `cs` have run one after another from `t`. -/
def run {P E : Type} (t : LoginAttempts) : List (Call P E) → LoginAttempts
  | [] => t
  | c :: cs => run (c.outcome t).loginAttempts cs

/-- The count of the record of `email`, and `0` where it has none. -/
def failureCount (t : LoginAttempts) (email : String) : Nat :=
  match t email with
  | some a => a.count
  | none => 0

/-- A verifier for worked examples: the one account is `a@x.com` with secret
`pw`, and its profile is `7`. -/
def demoVerifier : String → String → Verdict Nat Unit :=
  fun email password => if email = "a@x.com" ∧ password = "pw" then .ok (some 7) else .ok none

/-- A call for worked examples: `email` tries `password`, and every clock
reading of the call is `ms`. -/
def demoCall (email password : String) (ms : Int) : Call Nat Unit :=
  { checkLoginCredentials := demoVerifier
    email := email
    password := password
    clock := ⟨ms, ms, ms, ms⟩ }

/-- A verifier for worked examples whose storage is down: every call rejects. -/
def downVerifier : String → String → Verdict Nat Unit :=
  fun _ _ => .error ()

/-- Five wrong passwords for `a@x.com` within two minutes, one every thirty
seconds from time 0. -/
def fiveFailures : List (Call Nat Unit) :=
  [demoCall "a@x.com" "b1" 0, demoCall "a@x.com" "b2" 30000, demoCall "a@x.com" "b3" 60000,
   demoCall "a@x.com" "b4" 90000, demoCall "a@x.com" "b5" 120000]

/-- Where a request stands in the handler: not yet started, suspended at the
`await` of line 40, or finished. -/
inductive Phase where
  | ready
  | awaiting
  | finished
deriving DecidableEq, Repr

/-- Several requests in flight on the one thread of the process: the shared
table, the phase of each request, and the update steps run so far, oldest
first, each as the request and the count it read back after its write. -/
structure Pool where
  loginAttempts : LoginAttempts
  phase : Nat → Phase
  written : List (Nat × Count)

/-- No request has started yet. -/
def Pool.start (t : LoginAttempts) : Pool :=
  { loginAttempts := t, phase := fun _ => .ready, written := [] }

/-- The thread runs request `i` of `calls` up to its next suspension.  A ready
request runs lines 15 to 43: the lock check, then either the lockout error or
the call of the verifier, at which it suspends.  A suspended request resumes
with the verifier's answer and runs lines 45 to 70.  Nothing else runs in
between: a handler is only left at its `await`. -/
def Pool.step {P E : Type} (calls : List (Call P E)) (s : Pool) (i : Nat) : Pool :=
  match calls.get? i with
  | none => s
  | some c =>
    match s.phase i with
    | .ready =>
      match lockCheck s.loginAttempts c.email c.clock with
      | .error _ =>
        { s with phase := fun j => if j = i then .finished else s.phase j }
      | .ok t1 =>
        { s with loginAttempts := t1
                 phase := fun j => if j = i then .awaiting else s.phase j }
    | .awaiting =>
      let r := afterCheck s.loginAttempts c.email c.clock
        (c.checkLoginCredentials c.email c.password)
      { loginAttempts := r.1
        phase := fun j => if j = i then .finished else s.phase j
        written :=
          match c.checkLoginCredentials c.email c.password with
          | .ok none => s.written ++ [(i, (recordFailure s.loginAttempts c.email c.clock).2)]
          | .ok (some _) => s.written ++ [(i, 0)]
          | .error _ => s.written }
    | .finished => s

/-- The thread runs the requests of `calls` in the order `schedule` gives. -/
def Pool.run {P E : Type} (calls : List (Call P E)) (s : Pool) (schedule : List Nat) : Pool :=
  schedule.foldl (Pool.step calls) s

/-- The bookkeeping of a pool of requests for `email`: the count of `email`
is the number of update steps run, no update step left a greater count, the
counts left and the requests that left them are pairwise different, a request
that has run its update step is finished, and a record with a positive count
carries the clock reading of the update step of one of the requests. -/
structure Pool.Counted {P E : Type} (calls : List (Call P E)) (email : String) (s : Pool) :
    Prop where
  length_eq : failureCount s.loginAttempts email = s.written.length
  le_count : ∀ w ∈ s.written, ∃ n, w.2 = .num n ∧ n ≤ failureCount s.loginAttempts email
  nodup_counts : (s.written.map Prod.snd).Nodup
  finished : ∀ w ∈ s.written, s.phase w.1 = .finished
  nodup_requests : (s.written.map Prod.fst).Nodup
  stamped : ∀ a, s.loginAttempts email = some a → a.count ≥ 1 →
    ∃ d ∈ calls, a.lastAttempt = some d.clock.failedAt

/-- A call for worked examples: `a@x.com` tries a wrong password; the lock
check reads the clock at `checkMs` and the update step at `failMs`. -/
def raceCall (checkMs failMs : Int) : Call Nat Unit :=
  { checkLoginCredentials := demoVerifier
    email := "a@x.com"
    password := "bad"
    clock := ⟨checkMs, checkMs, failMs, failMs⟩ }

/-- Seven requests with wrong passwords for `a@x.com`: six start within 5 ms,
the first five get their answers at 10 to 14 ms, the sixth waits for its
answer for half an hour, and the seventh starts 1,800,000 ms after the fifth
failure was recorded. -/
def raceCalls : List (Call Nat Unit) :=
  [raceCall 0 10, raceCall 1 11, raceCall 2 12, raceCall 3 13, raceCall 4 14,
   raceCall 5 1800020, raceCall 1800014 1800021]

/-- The order of the steps of `raceCalls`, by the clock. -/
def raceSchedule : List Nat := [0, 1, 2, 3, 4, 5, 0, 1, 2, 3, 4, 6, 5, 6]

/-- Five wrong passwords for the identity `constructor` within two minutes. -/
def fiveForConstructor : List (Call Nat Unit) :=
  [demoCall "constructor" "b1" 0, demoCall "constructor" "b2" 30000,
   demoCall "constructor" "b3" 60000, demoCall "constructor" "b4" 90000,
   demoCall "constructor" "b5" 120000]

end Authentication

/-!
# Deleting a purchase

A shallow embedding of `deletePurchases` from
`src/api/components/users/users-service.js` and of the two functions of
`users-repository.js` it calls.  The Mongoose models `User` and `purchases`
come from `models`, outside these files; a collection is embedded as the list
of its documents, `findById` as the search for the first document with that
`_id`, and `deleteOne({ _id: id })` as the removal of the first such document.
A query rejects when the database cannot be reached.
-/

namespace Users

/-- A document of the collection of the model `User`. -/
structure UserDoc where
  _id : String
  name : String
  email : String
  password : String
deriving DecidableEq, Repr

/-- A document of the collection of the model `purchases`. -/
structure PurchaseDoc where
  _id : String
  name : String
  price : String
  quantity : String
deriving DecidableEq, Repr

/-- The database: the two collections, and whether it can be reached. -/
structure Database where
  User : List UserDoc
  purchases : List PurchaseDoc
  connected : Bool
deriving DecidableEq, Repr

/-- The error with which a query rejects. -/
inductive DriverError where
  | unreachable
deriving DecidableEq, Repr

/-- Repository, lines 158 to 160: `return purchases.findById(id)`. -/
def usersRepository.getPurchases (db : Database) (id : String) :
    Except DriverError (Option PurchaseDoc) :=
  if db.connected then .ok (db.purchases.find? (fun d => d._id == id))
  else .error .unreachable

/-- Repository, lines 167 to 169: `return User.deleteOne({ _id: id })`.  The
result is the database after the query. -/
def usersRepository.deletePurchases (db : Database) (id : String) :
    Except DriverError Database :=
  if db.connected then .ok { db with User := db.User.eraseP (fun d => d._id == id) }
  else .error .unreachable

/-- The name `purchases` as the service reads it at line 340: the model
imported at line 4 of the service, an object, hence truthy.  The answer of
`getPurchases` is bound to `user` at line 337 and not read. -/
def purchasesIsTruthy : Bool := true

/-- Service, lines 336 to 351.  The result is the database after the call and
the value the promise settles with: `.ok none` for `null`, `.ok (some true)`
for `true`, `.error e` for a rejection. -/
def usersService.deletePurchases (db : Database) (id : String) :
    Database × Except DriverError (Option Bool) :=
  match usersRepository.getPurchases db id with
  | .error e => (db, .error e)
  | .ok _user =>
    if !purchasesIsTruthy then (db, .ok none)
    else
      match usersRepository.deletePurchases db id with
      | .error _ => (db, .ok none)
      | .ok db2 => (db2, .ok (some true))

/-- A database for worked examples: one user `u1` and one purchase `p1`. -/
def demoDatabase : Database :=
  { User := [{ _id := "u1", name := "Ann", email := "a@x.com", password := "h" }]
    purchases := [{ _id := "p1", name := "pen", price := "3", quantity := "2" }]
    connected := true }

end Users

namespace Authentication

/-! ## Basic lemmas -/

theorem timeDiff_ge_iff (currentTime : Int) (l : Option Int) :
    timeDiff currentTime l ≥ 30 ↔ 1800000 ≤ currentTime - toNumber l := by
  unfold timeDiff
  rw [ge_iff_le, le_div_iff₀ (by norm_num)]
  have : (30 : ℚ) * (1000 * 60) = ((1800000 : Int) : ℚ) := by norm_num
  rw [this, Int.cast_le]

theorem LoginAttempts.set_same (t : LoginAttempts) (email : String) (a : Attempt) :
    t.set email a email = some a := by
  simp [LoginAttempts.set]

theorem LoginAttempts.set_other (t : LoginAttempts) (email : String) (a : Attempt)
    (k : String) (h : k ≠ email) : t.set email a k = t k := by
  simp [LoginAttempts.set, h]

theorem LoginAttempts.set_set (t : LoginAttempts) (email : String) (a b : Attempt) :
    (t.set email a).set email b = t.set email b := by
  have : (fun k => if k = email then some b else if k = email then some a else t.records k) =
      fun k => if k = email then some b else t.records k := by
    funext k
    by_cases h : k = email <;> simp [h]
  simp [LoginAttempts.set, this]

/-- A key with a record reads as that record. -/
theorem LoginAttempts.read_record (t : LoginAttempts) (email : String) (a : Attempt)
    (h : t email = some a) : t.read email = .record a := by
  simp [LoginAttempts.read, h]

/-- A read gives a record only where the key has one. -/
theorem LoginAttempts.read_eq_record (t : LoginAttempts) (email : String) (a : Attempt)
    (h : t.read email = .record a) : t email = some a := by
  unfold LoginAttempts.read at h
  cases hrec : t.records email with
  | some b =>
    simp only [hrec] at h
    cases h
    rfl
  | none =>
    exfalso
    simp only [hrec] at h
    cases hp : t.records "__proto__" with
    | none =>
      simp only [hp] at h
      split_ifs at h
    | some r =>
      simp only [hp] at h
      split_ifs at h

/-- Away from the inherited names, a key without a record reads as missing. -/
theorem LoginAttempts.read_plain (t : LoginAttempts) (email : String)
    (hplain : email ∉ inheritedNames) (h : t email = none) : t.read email = .missing := by
  simp only [inheritedNames, List.mem_cons, not_or] at hplain
  obtain ⟨h1, h2, h3, h4⟩ := hplain
  simp [LoginAttempts.read, h, h1, h2, h3, h4]

theorem lockCheck_none (t : LoginAttempts) (email : String) (clock : Clock)
    (h : t email = none) : lockCheck t email clock = .ok t := by
  unfold lockCheck
  cases hr : t.read email with
  | record a =>
    have := t.read_eq_record email a hr
    rw [h] at this
    cases this
  | missing => rfl
  | prototype => rfl
  | object => rfl
  | number => rfl

theorem lockCheck_below (t : LoginAttempts) (email : String) (clock : Clock) (a : Attempt)
    (h : t email = some a) (hc : a.count < 5) : lockCheck t email clock = .ok t := by
  have : ¬ 5 ≤ a.count := by omega
  simp [lockCheck, t.read_record email a h, this]

theorem lockCheck_expired (t : LoginAttempts) (email : String) (clock : Clock) (a : Attempt)
    (h : t email = some a) (hc : 5 ≤ a.count)
    (hd : 1800000 ≤ clock.currentTime - toNumber a.lastAttempt) :
    lockCheck t email clock = .ok (t.set email { count := 0, lastAttempt := none }) := by
  simp [lockCheck, t.read_record email a h, hc, timeDiff_ge_iff, hd]

theorem lockCheck_locked (t : LoginAttempts) (email : String) (clock : Clock) (a : Attempt)
    (h : t email = some a) (hc : 5 ≤ a.count)
    (hd : clock.currentTime - toNumber a.lastAttempt < 1800000) :
    lockCheck t email clock =
      .error { errorType := .FORBIDDEN
               message := "Too many failed login attempts"
               timestamp := clock.lockedStamp
               attemptCount := a.count } := by
  have : ¬ 1800000 ≤ clock.currentTime - toNumber a.lastAttempt := by omega
  simp [lockCheck, t.read_record email a h, hc, timeDiff_ge_iff, this]

theorem failureCount_set_same (t : LoginAttempts) (email : String) (n : Nat)
    (l : Option Int) :
    failureCount (t.set email { count := n, lastAttempt := l }) email = n := by
  simp [failureCount, LoginAttempts.set_same]

/-- The table with which the handler goes on after the lock check is the
table it was given or that table with the record of `email` reset. -/
theorem lockCheck_ok_cases (t t1 : LoginAttempts) (email : String) (clock : Clock)
    (h : lockCheck t email clock = .ok t1) :
    t1 = t ∨ (t1 = t.set email { count := 0, lastAttempt := none } ∧
      ∃ a, t email = some a ∧ a.count ≥ 5 ∧
        clock.currentTime - toNumber a.lastAttempt ≥ 1800000) := by
  cases hrec : t email with
  | none =>
    rw [lockCheck_none t email clock hrec] at h
    exact Or.inl (Except.ok.inj h).symm
  | some a =>
    by_cases hc : a.count ≥ 5
    · by_cases hd : clock.currentTime - toNumber a.lastAttempt ≥ 1800000
      · rw [lockCheck_expired t email clock a hrec hc hd] at h
        exact Or.inr ⟨(Except.ok.inj h).symm, a, rfl, hc, hd⟩
      · rw [lockCheck_locked t email clock a hrec hc (by omega)] at h
        cases h
    · rw [lockCheck_below t email clock a hrec (by omega)] at h
      exact Or.inl (Except.ok.inj h).symm

/-- The lockout error is thrown only for a record at or over the threshold
whose window has not expired, and it carries that record's count. -/
theorem lockCheck_error_cases (t : LoginAttempts) (email : String) (clock : Clock)
    (err : ResponderError) (h : lockCheck t email clock = .error err) :
    ∃ a, t email = some a ∧ a.count ≥ 5 ∧
      clock.currentTime - toNumber a.lastAttempt < 1800000 ∧
      err = { errorType := .FORBIDDEN
              message := "Too many failed login attempts"
              timestamp := clock.lockedStamp
              attemptCount := a.count } := by
  cases hrec : t email with
  | none =>
    rw [lockCheck_none t email clock hrec] at h
    cases h
  | some a =>
    by_cases hc : a.count ≥ 5
    · by_cases hd : clock.currentTime - toNumber a.lastAttempt ≥ 1800000
      · rw [lockCheck_expired t email clock a hrec hc hd] at h
        cases h
      · rw [lockCheck_locked t email clock a hrec hc (by omega)] at h
        exact ⟨a, rfl, hc, by omega, (Except.error.inj h).symm⟩
    · rw [lockCheck_below t email clock a hrec (by omega)] at h
      cases h

/-- A failed check on a record counts it up. -/
theorem recordFailure_record (t : LoginAttempts) (email : String) (clock : Clock) (a : Attempt)
    (h : t email = some a) :
    recordFailure t email clock =
      (t.set email { count := a.count + 1, lastAttempt := some clock.failedAt },
        .num (a.count + 1)) := by
  simp [recordFailure, t.read_record email a h]

/-- Away from the inherited names, a failed check on a key without a record
makes the record with count 1. -/
theorem recordFailure_plain (t : LoginAttempts) (email : String) (clock : Clock)
    (hplain : email ∉ inheritedNames) (h : t email = none) :
    recordFailure t email clock =
      (t.set email { count := 1, lastAttempt := some clock.failedAt }, .num 1) := by
  simp only [recordFailure, t.read_plain email hplain h]
  rfl

/-- After a failed check on a key without a record, the records are as they
were and the count read back is not a number, or the key has the record with
count 1. -/
theorem recordFailure_none_cases (t : LoginAttempts) (email : String) (clock : Clock)
    (h : t email = none) :
    ((recordFailure t email clock).1.records = t.records ∧
        ∀ n, (recordFailure t email clock).2 ≠ .num n) ∨
      recordFailure t email clock =
        (t.set email { count := 1, lastAttempt := some clock.failedAt }, .num 1) := by
  unfold recordFailure
  cases hr : t.read email with
  | record a =>
    have := t.read_eq_record email a hr
    rw [h] at this
    cases this
  | missing => exact Or.inr rfl
  | prototype => exact Or.inl ⟨rfl, fun n hn => by cases hn⟩
  | object => exact Or.inl ⟨rfl, fun n hn => by cases hn⟩
  | number =>
    refine Or.inl ⟨rfl, fun n hn => ?_⟩
    simp only at hn
    split_ifs at hn

/-- The key `__proto__` is the only one that reads as `Object.prototype`. -/
theorem LoginAttempts.read_prototype (t : LoginAttempts) (email : String)
    (h : t.read email = .prototype) : email = "__proto__" := by
  unfold LoginAttempts.read at h
  by_contra hne
  cases hrec : t.records email with
  | some b => simp [hrec] at h
  | none =>
    simp only [hrec, hne, if_false] at h
    cases hp : t.records "__proto__" with
    | none =>
      simp only [hp] at h
      split_ifs at h
    | some r =>
      simp only [hp] at h
      split_ifs at h

theorem Count.num_add_one (m : Nat) : (Count.num m + 1 : Count) = .num (m + 1) := rfl

theorem Count.one_eq : (1 : Count) = .num 1 := rfl

theorem Count.five_eq : (5 : Count) = .num 5 := rfl

/-- Away from the inherited names, a call that passes the lock check unchanged
and whose credential check comes back falsy: the whole outcome. -/
theorem login_failure_step {P E : Type} (checkLoginCredentials : String → String → Verdict P E)
    (t : LoginAttempts) (email password : String) (clock : Clock)
    (hplain : email ∉ inheritedNames) (hcount : failureCount t email < 5)
    (hfail : checkLoginCredentials email password = .ok none) :
    login checkLoginCredentials t email password clock =
      { loginAttempts :=
          t.set email { count := failureCount t email + 1, lastAttempt := some clock.failedAt }
        verifierCalls := [(email, password)]
        reply := .next { errorType := .INVALID_CREDENTIALS
                         message := "Wrong email or password"
                         timestamp := clock.failedStamp
                         attemptCount := .num (failureCount t email + 1) } } := by
  cases hrec : t email with
  | none =>
    simp [login, lockCheck_none t email clock hrec, hfail, afterCheck,
      recordFailure_plain t email clock hplain hrec, failureCount, hrec]
  | some a =>
    have hlt : a.count < 5 := by simpa [failureCount, hrec] using hcount
    simp [login, lockCheck_below t email clock a hrec hlt, hfail, afterCheck,
      recordFailure_record t email clock a hrec, failureCount, hrec]

/-- Away from the inherited names, consecutive failed logins for one identity
count up while the count stays within the threshold. -/
theorem run_failures_count {P E : Type} (email : String) (hplain : email ∉ inheritedNames)
    (cs : List (Call P E)) :
    ∀ t : LoginAttempts,
      (∀ c ∈ cs, c.email = email ∧ c.checkLoginCredentials email c.password = .ok none) →
      failureCount t email + cs.length ≤ 5 →
      failureCount (run t cs) email = failureCount t email + cs.length := by
  induction cs with
  | nil => intro t _ _; simp [run]
  | cons c cs ih =>
    intro t hall hlen
    obtain ⟨hmail, hfail⟩ := hall c (List.mem_cons_self _ _)
    simp only [List.length_cons] at hlen
    have hstep := login_failure_step c.checkLoginCredentials t email c.password c.clock
      hplain (by omega) hfail
    have htab : (c.outcome t).loginAttempts =
        t.set email { count := failureCount t email + 1,
                      lastAttempt := some c.clock.failedAt } := by
      simp [Call.outcome, hmail, hstep]
    simp only [run, htab, List.length_cons]
    rw [ih _ (fun d hd => hall d (List.mem_cons_of_mem _ hd))
      (by rw [failureCount_set_same]; omega), failureCount_set_same]
    omega

/-- The record left by consecutive failed logins for one identity. -/
theorem run_failures_record {P E : Type} (email : String) (hplain : email ∉ inheritedNames)
    (cs : List (Call P E)) :
    ∀ t : LoginAttempts,
      (∀ c ∈ cs, c.email = email ∧ c.checkLoginCredentials email c.password = .ok none) →
      failureCount t email + cs.length ≤ 5 →
      ∀ last, cs.getLast? = some last →
        run t cs email = some { count := failureCount t email + cs.length,
                                lastAttempt := some last.clock.failedAt } := by
  induction cs with
  | nil => intro t _ _ last hlast; simp at hlast
  | cons c cs ih =>
    intro t hall hlen last hlast
    obtain ⟨hmail, hfail⟩ := hall c (List.mem_cons_self _ _)
    simp only [List.length_cons] at hlen
    have hstep := login_failure_step c.checkLoginCredentials t email c.password c.clock
      hplain (by omega) hfail
    have htab : (c.outcome t).loginAttempts =
        t.set email { count := failureCount t email + 1,
                      lastAttempt := some c.clock.failedAt } := by
      simp [Call.outcome, hmail, hstep]
    cases cs with
    | nil =>
      simp at hlast
      subst hlast
      simp [run, htab, LoginAttempts.set_same]
    | cons d ds =>
      rw [List.getLast?_cons_cons] at hlast
      have hlen2 : failureCount (t.set email ⟨failureCount t email + 1,
          some c.clock.failedAt⟩) email + (d :: ds).length ≤ 5 := by
        rw [failureCount_set_same]
        simp only [List.length_cons] at hlen ⊢
        omega
      have hrun := ih _ (fun e he => hall e (List.mem_cons_of_mem _ he)) hlen2 last hlast
      rw [failureCount_set_same] at hrun
      have hsum : failureCount t email + 1 + (d :: ds).length =
          failureCount t email + ((d :: ds).length + 1) := by omega
      rw [hsum] at hrun
      simpa only [run, htab, List.length_cons] using hrun

/-- The shapes of the records after one call of `login`: as they were, or
with the record of `email` reset, or with it counted. -/
theorem login_table_cases {P E : Type} (checkLoginCredentials : String → String → Verdict P E)
    (t : LoginAttempts) (email password : String) (clock : Clock) :
    (login checkLoginCredentials t email password clock).loginAttempts.records = t.records ∨
      (login checkLoginCredentials t email password clock).loginAttempts =
        t.set email { count := 0, lastAttempt := none } ∨
      ∃ n, (login checkLoginCredentials t email password clock).loginAttempts =
        t.set email { count := n + 1, lastAttempt := some clock.failedAt } := by
  unfold login
  cases hgate : lockCheck t email clock with
  | error err => exact Or.inl rfl
  | ok t1 =>
    have ht1 := lockCheck_ok_cases t t1 email clock hgate
    cases hv : checkLoginCredentials email password with
    | error e =>
      rcases ht1 with h | ⟨h, _⟩
      · left; simp [afterCheck, h]
      · right; left; simp [afterCheck, h]
    | ok v =>
      cases v with
      | some p =>
        right; left
        rcases ht1 with h | ⟨h, _⟩ <;> simp [afterCheck, h, LoginAttempts.set_set]
      | none =>
        rcases ht1 with h | ⟨h, _⟩
        · subst h
          cases hrec : t1 email with
          | none =>
            rcases recordFailure_none_cases t1 email clock hrec with ⟨h2, _⟩ | h2
            · left; simp [afterCheck, h2]
            · right; right; exact ⟨0, by simp [afterCheck, h2]⟩
          | some a =>
            right; right
            exact ⟨a.count, by simp [afterCheck, recordFailure_record t1 email clock a hrec]⟩
        · right; right
          exact ⟨0, by
            simp [afterCheck, h, recordFailure_record _ email clock _
              (LoginAttempts.set_same t email _), LoginAttempts.set_set]⟩

/-- A call of `login` for `email` leaves the record of every other key as it was. -/
theorem login_other_key {P E : Type} (checkLoginCredentials : String → String → Verdict P E)
    (t : LoginAttempts) (email password : String) (clock : Clock) (k : String)
    (hk : k ≠ email) :
    (login checkLoginCredentials t email password clock).loginAttempts k = t k := by
  rcases login_table_cases checkLoginCredentials t email password clock with h | h | ⟨n, h⟩
  · rw [h]
  · rw [h]; exact LoginAttempts.set_other _ _ _ _ hk
  · rw [h]; exact LoginAttempts.set_other _ _ _ _ hk

/-- The record of `email` after one call of `login`: the record as it was, the
reset record, or a count raised by one from below the threshold. -/
theorem login_own_entry_cases {P E : Type}
    (checkLoginCredentials : String → String → Verdict P E)
    (t : LoginAttempts) (email password : String) (clock : Clock) :
    (login checkLoginCredentials t email password clock).loginAttempts email = t email ∨
      (login checkLoginCredentials t email password clock).loginAttempts email =
        some { count := 0, lastAttempt := none } ∨
      ∃ n, n < 5 ∧ (login checkLoginCredentials t email password clock).loginAttempts email =
        some { count := n + 1, lastAttempt := some clock.failedAt } := by
  unfold login
  cases hgate : lockCheck t email clock with
  | error err => exact Or.inl rfl
  | ok t1 =>
    cases hv : checkLoginCredentials email password with
    | error e =>
      rcases lockCheck_ok_cases t t1 email clock hgate with h | ⟨h, _⟩
      · left; simp [afterCheck, h]
      · right; left; simp [afterCheck, h, LoginAttempts.set_same]
    | ok v =>
      cases v with
      | some p => right; left; simp [afterCheck, LoginAttempts.set_same]
      | none =>
        rcases lockCheck_ok_cases t t1 email clock hgate with h | ⟨h, _⟩
        · subst h
          cases hrec : t1 email with
          | none =>
            rcases recordFailure_none_cases t1 email clock hrec with ⟨h2, _⟩ | h2
            · left; simp [afterCheck, h2, hrec]
            · right; right
              exact ⟨0, by decide, by simp [afterCheck, h2, LoginAttempts.set_same]⟩
          | some a =>
            right; right
            have hlt : a.count < 5 := by
              by_contra hge
              have hge5 : a.count ≥ 5 := by omega
              by_cases hd : clock.currentTime - toNumber a.lastAttempt ≥ 1800000
              · rw [lockCheck_expired t1 email clock a hrec hge5 hd] at hgate
                have hEq := congrArg (fun u : LoginAttempts => u.records email)
                  (Except.ok.inj hgate)
                simp only [LoginAttempts.set_same] at hEq
                have h3 : t1.records email = some a := hrec
                rw [h3] at hEq
                cases hEq
                simp at hge5
              · rw [lockCheck_locked t1 email clock a hrec hge5 (by omega)] at hgate
                cases hgate
            exact ⟨a.count, hlt, by
              simp [afterCheck, recordFailure_record t1 email clock a hrec,
                LoginAttempts.set_same]⟩
        · right; right
          exact ⟨0, by decide, by
            simp [afterCheck, h, recordFailure_record _ email clock _
              (LoginAttempts.set_same t email _), LoginAttempts.set_same]⟩

/-- The invariant of the table: a record whose `count` is 0 has no
`lastAttempt`. -/
theorem login_keeps_zero_clear {P E : Type}
    (checkLoginCredentials : String → String → Verdict P E)
    (t : LoginAttempts) (email password : String) (clock : Clock)
    (hinv : ∀ k a, t k = some a → a.count = 0 → a.lastAttempt = none) :
    ∀ k a, (login checkLoginCredentials t email password clock).loginAttempts k = some a →
      a.count = 0 → a.lastAttempt = none := by
  intro k a hka h0
  by_cases hk : k = email
  · subst hk
    rcases login_own_entry_cases checkLoginCredentials t k password clock with
      h | h | ⟨n, _, h⟩
    · rw [h] at hka; exact hinv k a hka h0
    · rw [h] at hka
      cases hka; rfl
    · rw [h] at hka
      cases hka; simp at h0
  · rw [login_other_key _ _ _ _ _ _ hk] at hka
    exact hinv k a hka h0

/-- Only a login for `__proto__` changes what `Object.prototype` holds. -/
theorem login_stamp {P E : Type} (checkLoginCredentials : String → String → Verdict P E)
    (t : LoginAttempts) (email password : String) (clock : Clock)
    (hne : email ≠ "__proto__") :
    (login checkLoginCredentials t email password clock).loginAttempts.prototypeStamp =
      t.prototypeStamp := by
  unfold login
  cases hgate : lockCheck t email clock with
  | error err => rfl
  | ok t1 =>
    have h1 : t1.prototypeStamp = t.prototypeStamp := by
      rcases lockCheck_ok_cases t t1 email clock hgate with h | ⟨h, _⟩ <;>
        simp [h, LoginAttempts.set]
    cases hv : checkLoginCredentials email password with
    | error e => simpa [afterCheck] using h1
    | ok v =>
      cases v with
      | some p => simpa [afterCheck, LoginAttempts.set] using h1
      | none =>
        simp only [afterCheck, recordFailure]
        cases hr : t1.read email with
        | prototype => exact absurd (t1.read_prototype email hr) hne
        | missing => simpa [LoginAttempts.set] using h1
        | record a => simpa [LoginAttempts.set] using h1
        | object => simpa using h1
        | number => simpa using h1

/-- Away from the inherited names, a call of `login` for `email` leaves what
every other key reads as it was. -/
theorem login_other_read {P E : Type} (checkLoginCredentials : String → String → Verdict P E)
    (t : LoginAttempts) (email password : String) (clock : Clock) (k : String)
    (hplain : email ∉ inheritedNames) (hk : k ≠ email) :
    (login checkLoginCredentials t email password clock).loginAttempts.read k = t.read k := by
  have hproto : email ≠ "__proto__" := by
    rintro rfl
    simp [inheritedNames] at hplain
  have h1 := login_other_key checkLoginCredentials t email password clock k hk
  have h2 := login_other_key checkLoginCredentials t email password clock "__proto__"
    (Ne.symm hproto)
  have h3 := login_stamp checkLoginCredentials t email password clock hproto
  simp only [LoginAttempts.read, h1, h2, h3]

/-- Away from the inherited names, the reply of `login`, the calls it makes to
the verifier and the record it leaves for `email` are determined by the
record of `email` alone. -/
theorem login_reads_own_entry {P E : Type}
    (checkLoginCredentials : String → String → Verdict P E)
    (t t2 : LoginAttempts) (email password : String) (clock : Clock)
    (hplain : email ∉ inheritedNames) (hsame : t email = t2 email) :
    (login checkLoginCredentials t email password clock).reply =
        (login checkLoginCredentials t2 email password clock).reply ∧
      (login checkLoginCredentials t email password clock).verifierCalls =
        (login checkLoginCredentials t2 email password clock).verifierCalls ∧
      (login checkLoginCredentials t email password clock).loginAttempts email =
        (login checkLoginCredentials t2 email password clock).loginAttempts email := by
  cases hrec : t2 email with
  | none =>
    have hrec1 : t email = none := hsame.trans hrec
    cases hv : checkLoginCredentials email password with
    | error e =>
      simp [login, lockCheck_none _ email clock hrec, lockCheck_none _ email clock hrec1, hv,
        afterCheck, hsame]
    | ok v =>
      cases v <;>
        simp [login, lockCheck_none _ email clock hrec, lockCheck_none _ email clock hrec1, hv,
          afterCheck, recordFailure_plain _ email clock hplain hrec,
          recordFailure_plain _ email clock hplain hrec1, LoginAttempts.set_same]
  | some a =>
    have hrec1 : t email = some a := hsame.trans hrec
    by_cases hc : a.count ≥ 5
    · by_cases hd : clock.currentTime - toNumber a.lastAttempt ≥ 1800000
      · have g1 := lockCheck_expired t email clock a hrec1 hc hd
        have g2 := lockCheck_expired t2 email clock a hrec hc hd
        cases hv : checkLoginCredentials email password with
        | error e => simp [login, g1, g2, hv, afterCheck, LoginAttempts.set_same]
        | ok v =>
          cases v <;>
            simp [login, g1, g2, hv, afterCheck,
              recordFailure_record _ email clock _ (LoginAttempts.set_same _ email _),
              LoginAttempts.set_same]
      · have g1 := lockCheck_locked t email clock a hrec1 hc (by omega)
        have g2 := lockCheck_locked t2 email clock a hrec hc (by omega)
        simp [login, g1, g2, hsame]
    · have g1 := lockCheck_below t email clock a hrec1 (by omega)
      have g2 := lockCheck_below t2 email clock a hrec (by omega)
      cases hv : checkLoginCredentials email password with
      | error e => simp [login, g1, g2, hv, afterCheck, hsame]
      | ok v =>
        cases v <;>
          simp [login, g1, g2, hv, afterCheck, recordFailure_record _ email clock a hrec,
            recordFailure_record _ email clock a hrec1, LoginAttempts.set_same]

theorem Pool.step_locked {P E : Type} (calls : List (Call P E)) (s : Pool) (i : Nat)
    (c : Call P E) (err : ResponderError) (hget : calls.get? i = some c)
    (hph : s.phase i = .ready)
    (hgate : lockCheck s.loginAttempts c.email c.clock = .error err) :
    Pool.step calls s i =
      { loginAttempts := s.loginAttempts
        phase := fun j => if j = i then .finished else s.phase j
        written := s.written } := by
  simp only [Pool.step, hget, hph, hgate]

theorem Pool.step_passed {P E : Type} (calls : List (Call P E)) (s : Pool) (i : Nat)
    (c : Call P E) (t1 : LoginAttempts) (hget : calls.get? i = some c)
    (hph : s.phase i = .ready)
    (hgate : lockCheck s.loginAttempts c.email c.clock = .ok t1) :
    Pool.step calls s i =
      { loginAttempts := t1
        phase := fun j => if j = i then .awaiting else s.phase j
        written := s.written } := by
  simp only [Pool.step, hget, hph, hgate]

/-- Away from the inherited names, the update step of a failed attempt. -/
theorem Pool.step_failed {P E : Type} (calls : List (Call P E)) (s : Pool) (i : Nat)
    (c : Call P E) (hget : calls.get? i = some c) (hph : s.phase i = .awaiting)
    (hplain : c.email ∉ inheritedNames)
    (hfail : c.checkLoginCredentials c.email c.password = .ok none) :
    Pool.step calls s i =
      { loginAttempts := s.loginAttempts.set c.email
          { count := failureCount s.loginAttempts c.email + 1
            lastAttempt := some c.clock.failedAt }
        phase := fun j => if j = i then .finished else s.phase j
        written := s.written ++ [(i, .num (failureCount s.loginAttempts c.email + 1))] } := by
  have hrf : recordFailure s.loginAttempts c.email c.clock =
      (s.loginAttempts.set c.email
        { count := failureCount s.loginAttempts c.email + 1
          lastAttempt := some c.clock.failedAt },
        .num (failureCount s.loginAttempts c.email + 1)) := by
    cases hrec : s.loginAttempts c.email with
    | none =>
      rw [recordFailure_plain _ _ _ hplain hrec]
      simp [failureCount, hrec]
    | some a =>
      rw [recordFailure_record _ _ _ a hrec]
      simp [failureCount, hrec]
  simp only [Pool.step, hget, hph, hfail, afterCheck, hrf]

/-- One step of the thread keeps the bookkeeping, when every request is a
failed attempt for `email`, a key away from the inherited names, and every
lock check reads the clock less than 1,800,000 ms after every update step
does. -/
theorem Pool.Counted.step {P E : Type} (calls : List (Call P E)) (email : String)
    (hplain : email ∉ inheritedNames)
    (hall : ∀ c ∈ calls, c.email = email ∧ c.checkLoginCredentials email c.password = .ok none)
    (hwin : ∀ c ∈ calls, ∀ d ∈ calls, c.clock.currentTime - d.clock.failedAt < 1800000)
    (s : Pool) (i : Nat) (hs : Pool.Counted calls email s) :
    Pool.Counted calls email (Pool.step calls s i) := by
  cases hget : calls.get? i with
  | none =>
    have : Pool.step calls s i = s := by simp only [Pool.step, hget]
    rw [this]
    exact hs
  | some c =>
    have hmem : c ∈ calls := List.get?_mem hget
    obtain ⟨hmail, hfail⟩ := hall c hmem
    subst hmail
    cases hph : s.phase i with
    | finished =>
      have : Pool.step calls s i = s := by simp only [Pool.step, hget, hph]
      rw [this]
      exact hs
    | ready =>
      have hni : ∀ w ∈ s.written, w.1 ≠ i := by
        intro w hw hwi
        have := hs.finished w hw
        rw [hwi, hph] at this
        cases this
      cases hgate : lockCheck s.loginAttempts c.email c.clock with
      | error err =>
        rw [Pool.step_locked calls s i c err hget hph hgate]
        exact
          { length_eq := hs.length_eq
            le_count := hs.le_count
            nodup_counts := hs.nodup_counts
            finished := fun w hw => by simp [hni w hw, hs.finished w hw]
            nodup_requests := hs.nodup_requests
            stamped := hs.stamped }
      | ok t1 =>
        have ht1 : t1 = s.loginAttempts := by
          rcases lockCheck_ok_cases s.loginAttempts t1 c.email c.clock hgate with
            h | ⟨_, a, hrec, hc, hd⟩
          · exact h
          · exfalso
            obtain ⟨d, hdmem, hlast⟩ := hs.stamped a hrec (by omega)
            have := hwin c hmem d hdmem
            rw [hlast] at hd
            simp only [toNumber, Option.getD_some] at hd
            omega
        subst ht1
        rw [Pool.step_passed calls s i c _ hget hph hgate]
        exact
          { length_eq := hs.length_eq
            le_count := hs.le_count
            nodup_counts := hs.nodup_counts
            finished := fun w hw => by simp [hni w hw, hs.finished w hw]
            nodup_requests := hs.nodup_requests
            stamped := hs.stamped }
    | awaiting =>
      have hni : ∀ w ∈ s.written, w.1 ≠ i := by
        intro w hw hwi
        have := hs.finished w hw
        rw [hwi, hph] at this
        cases this
      rw [Pool.step_failed calls s i c hget hph hplain hfail]
      exact
        { length_eq := by
            simp only [failureCount_set_same, List.length_append, List.length_singleton]
            rw [hs.length_eq]
          le_count := by
            intro w hw
            simp only [failureCount_set_same]
            rcases List.mem_append.mp hw with h | h
            · obtain ⟨n, hn, hle⟩ := hs.le_count w h
              exact ⟨n, hn, Nat.le_succ_of_le hle⟩
            · simp only [List.mem_singleton] at h
              subst h
              exact ⟨_, rfl, Nat.le_refl _⟩
          nodup_counts := by
            simp only [List.map_append, List.map_cons, List.map_nil]
            rw [List.nodup_append]
            refine ⟨hs.nodup_counts, List.nodup_singleton _, ?_⟩
            intro x hx hx2
            simp only [List.mem_singleton] at hx2
            obtain ⟨w, hw, hwx⟩ := List.mem_map.mp hx
            obtain ⟨n, hn, hle⟩ := hs.le_count w hw
            rw [hx2, hn] at hwx
            cases hwx
            omega
          finished := by
            intro w hw
            rcases List.mem_append.mp hw with h | h
            · simp [hni w h, hs.finished w h]
            · simp only [List.mem_singleton] at h
              subst h
              simp
          nodup_requests := by
            simp only [List.map_append, List.map_cons, List.map_nil]
            rw [List.nodup_append]
            refine ⟨hs.nodup_requests, List.nodup_singleton _, ?_⟩
            intro x hx hx2
            simp only [List.mem_singleton] at hx2
            obtain ⟨w, hw, hwx⟩ := List.mem_map.mp hx
            exact hni w hw (hwx.trans hx2)
          stamped := by
            intro a ha _
            simp only [LoginAttempts.set_same] at ha
            cases ha
            exact ⟨c, hmem, rfl⟩ }

/-- The bookkeeping holds after any schedule. -/
theorem Pool.Counted.run {P E : Type} (calls : List (Call P E)) (email : String)
    (hplain : email ∉ inheritedNames)
    (hall : ∀ c ∈ calls, c.email = email ∧ c.checkLoginCredentials email c.password = .ok none)
    (hwin : ∀ c ∈ calls, ∀ d ∈ calls, c.clock.currentTime - d.clock.failedAt < 1800000)
    (schedule : List Nat) :
    ∀ s : Pool, Pool.Counted calls email s →
      Pool.Counted calls email (Pool.run calls s schedule) := by
  induction schedule with
  | nil => intro s hs; exact hs
  | cons i rest ih =>
    intro s hs
    simp only [Pool.run, List.foldl_cons]
    exact ih _ (Pool.Counted.step calls email hplain hall hwin s i hs)

/-- A request that runs its two steps with nothing in between does what
`login` does. -/
theorem Pool.step_twice {P E : Type} (calls : List (Call P E)) (s : Pool) (i : Nat)
    (c : Call P E) (hget : calls.get? i = some c) (hph : s.phase i = .ready) :
    (Pool.step calls (Pool.step calls s i) i).loginAttempts =
      (c.outcome s.loginAttempts).loginAttempts := by
  cases hgate : lockCheck s.loginAttempts c.email c.clock with
  | error err =>
    rw [Pool.step_locked calls s i c err hget hph hgate]
    simp only [Pool.step, hget, if_true, Call.outcome, login, hgate]
  | ok t1 =>
    rw [Pool.step_passed calls s i c t1 hget hph hgate]
    simp only [Pool.step, hget, if_true, Call.outcome, login, hgate]

/-! ## The claims -/

/-- C1: when the record of `email` has `count ≥ 5` and fewer than 1,800,000 ms
lie between its `lastAttempt` and the clock reading of the call, `login` passes
the FORBIDDEN error to `next` whatever the verifier would answer, does not call
`checkLoginCredentials`, and the error carries the record's `count` as
`attemptCount`. -/
theorem login_locked_out {P E : Type} (checkLoginCredentials : String → String → Verdict P E)
    (t : LoginAttempts) (email password : String) (clock : Clock) (a : Attempt)
    (hrec : t email = some a) (hcount : a.count ≥ 5)
    (hwindow : clock.currentTime - toNumber a.lastAttempt < 1800000) :
    (login checkLoginCredentials t email password clock).reply =
        .next { errorType := .FORBIDDEN
                message := "Too many failed login attempts"
                timestamp := clock.lockedStamp
                attemptCount := a.count } ∧
      (login checkLoginCredentials t email password clock).verifierCalls = [] ∧
      failureCount t email = a.count := by
  simp [login, lockCheck_locked t email clock a hrec hcount hwindow, failureCount, hrec]

/-- Witness of C1: five failures recorded at time 0, a correct password tried
three minutes later. -/
theorem login_locked_out_witness :
    (login (fun _ _ => (.ok (some 7) : Verdict Nat Unit))
        (LoginAttempts.empty.set "a@x.com" { count := 5, lastAttempt := some 0 })
        "a@x.com" "pw" ⟨180000, 180000, 180000, 180000⟩).reply =
        .next { errorType := .FORBIDDEN
                message := "Too many failed login attempts"
                timestamp := 180000
                attemptCount := 5 } ∧
      (login (fun _ _ => (.ok (some 7) : Verdict Nat Unit))
        (LoginAttempts.empty.set "a@x.com" { count := 5, lastAttempt := some 0 })
        "a@x.com" "pw" ⟨180000, 180000, 180000, 180000⟩).verifierCalls = [] ∧
      failureCount (LoginAttempts.empty.set "a@x.com" { count := 5, lastAttempt := some 0 })
        "a@x.com" = 5 :=
  login_locked_out _ _ "a@x.com" "pw" ⟨180000, 180000, 180000, 180000⟩
    { count := 5, lastAttempt := some 0 } (LoginAttempts.set_same _ _ _) (by decide) (by decide)

/-- Away from the inherited names: for an identity without a record, a login
whose credential check comes back falsy passes INVALID_CREDENTIALS with
`attemptCount = 1` to `next`, and leaves the record
`{ count: 1, lastAttempt: now }`, on which the lock check of any later call
does not fire. -/
theorem login_first_failure {P E : Type} (checkLoginCredentials : String → String → Verdict P E)
    (t : LoginAttempts) (email password : String) (clock : Clock)
    (hplain : email ∉ inheritedNames)
    (hrec : t email = none) (hfail : checkLoginCredentials email password = .ok none) :
    (login checkLoginCredentials t email password clock).reply =
        .next { errorType := .INVALID_CREDENTIALS
                message := "Wrong email or password"
                timestamp := clock.failedStamp
                attemptCount := 1 } ∧
      (login checkLoginCredentials t email password clock).loginAttempts email =
        some { count := 1, lastAttempt := some clock.failedAt } ∧
      ∀ later : Clock,
        lockCheck (login checkLoginCredentials t email password clock).loginAttempts email later =
          .ok (login checkLoginCredentials t email password clock).loginAttempts := by
  have hlogin : login checkLoginCredentials t email password clock =
      { loginAttempts := t.set email { count := 1, lastAttempt := some clock.failedAt }
        verifierCalls := [(email, password)]
        reply := .next { errorType := .INVALID_CREDENTIALS
                         message := "Wrong email or password"
                         timestamp := clock.failedStamp
                         attemptCount := 1 } } := by
    simp [login, lockCheck_none t email clock hrec, hfail, afterCheck,
      recordFailure_plain t email clock hplain hrec, Count.one_eq]
  rw [hlogin]
  refine ⟨rfl, LoginAttempts.set_same _ _ _, fun later => ?_⟩
  exact lockCheck_below _ email later _ (LoginAttempts.set_same _ _ _) (by simp)

/-- C2 does not hold of the code.  On the empty table the identity
`constructor` has no record.  A login for it whose credential check comes back
falsy finds the inherited function at line 47, runs `count++` on it, and is
answered with INVALID_CREDENTIALS whose `attemptCount` is `NaN`, not 1;
afterwards the identity still has no record. -/
theorem constructor_failure_not_recorded :
    LoginAttempts.empty "constructor" = none ∧
      demoVerifier "constructor" "bad" = .ok none ∧
      (login demoVerifier LoginAttempts.empty "constructor" "bad" ⟨10, 11, 12, 13⟩).reply =
        .next { errorType := .INVALID_CREDENTIALS
                message := "Wrong email or password"
                timestamp := 13
                attemptCount := .nan } ∧
      (login demoVerifier LoginAttempts.empty "constructor" "bad"
        ⟨10, 11, 12, 13⟩).loginAttempts "constructor" = none := by
  simp [login, lockCheck, afterCheck, recordFailure, LoginAttempts.read, LoginAttempts.empty,
    objectPrototypeFunctions, demoVerifier]

/-- C3: for an identity whose record has `count = c < 5`, a login whose
credential check comes back falsy calls `checkLoginCredentials` once, leaves
the record `{ count: c + 1, lastAttempt: now }` and passes INVALID_CREDENTIALS
with `attemptCount = c + 1` to `next`; from `c = 4` the count becomes 5. -/
theorem login_next_failure {P E : Type} (checkLoginCredentials : String → String → Verdict P E)
    (t : LoginAttempts) (email password : String) (clock : Clock) (a : Attempt)
    (hrec : t email = some a) (hcount : a.count < 5)
    (hfail : checkLoginCredentials email password = .ok none) :
    (login checkLoginCredentials t email password clock).verifierCalls = [(email, password)] ∧
      (login checkLoginCredentials t email password clock).loginAttempts email =
        some { count := a.count + 1, lastAttempt := some clock.failedAt } ∧
      (login checkLoginCredentials t email password clock).reply =
        .next { errorType := .INVALID_CREDENTIALS
                message := "Wrong email or password"
                timestamp := clock.failedStamp
                attemptCount := a.count + 1 } ∧
      (a.count = 4 →
        failureCount (login checkLoginCredentials t email password clock).loginAttempts email
          = 5) := by
  have hlogin : login checkLoginCredentials t email password clock =
      { loginAttempts := t.set email { count := a.count + 1, lastAttempt := some clock.failedAt }
        verifierCalls := [(email, password)]
        reply := .next { errorType := .INVALID_CREDENTIALS
                         message := "Wrong email or password"
                         timestamp := clock.failedStamp
                         attemptCount := a.count + 1 } } := by
    simp [login, lockCheck_below t email clock a hrec hcount, hfail, afterCheck,
      recordFailure_record t email clock a hrec, Count.num_add_one]
  rw [hlogin]
  refine ⟨rfl, LoginAttempts.set_same _ _ _, rfl, fun h4 => ?_⟩
  simp [failureCount, LoginAttempts.set_same, h4]

/-- Witness of C3: four failures on record, the fifth attempt fails too. -/
theorem login_next_failure_witness :
    (login (fun _ _ => (.ok none : Verdict Nat Unit))
        (LoginAttempts.empty.set "a@x.com" { count := 4, lastAttempt := some 5 })
        "a@x.com" "bad" ⟨10, 11, 12, 13⟩).verifierCalls = [("a@x.com", "bad")] ∧
      (login (fun _ _ => (.ok none : Verdict Nat Unit))
        (LoginAttempts.empty.set "a@x.com" { count := 4, lastAttempt := some 5 })
        "a@x.com" "bad" ⟨10, 11, 12, 13⟩).loginAttempts "a@x.com" =
        some { count := 4 + 1, lastAttempt := some 12 } ∧
      (login (fun _ _ => (.ok none : Verdict Nat Unit))
        (LoginAttempts.empty.set "a@x.com" { count := 4, lastAttempt := some 5 })
        "a@x.com" "bad" ⟨10, 11, 12, 13⟩).reply =
        .next { errorType := .INVALID_CREDENTIALS
                message := "Wrong email or password"
                timestamp := 13
                attemptCount := 4 + 1 } ∧
      ((4 : Nat) = 4 →
        failureCount (login (fun _ _ => (.ok none : Verdict Nat Unit))
          (LoginAttempts.empty.set "a@x.com" { count := 4, lastAttempt := some 5 })
          "a@x.com" "bad" ⟨10, 11, 12, 13⟩).loginAttempts "a@x.com" = 5) :=
  login_next_failure _ _ "a@x.com" "bad" ⟨10, 11, 12, 13⟩ { count := 4, lastAttempt := some 5 }
    (LoginAttempts.set_same _ _ _) (by decide) rfl

/-- C4: whenever `login` answers with `response.status(200).json(body)`, the
record of `email` afterwards is `{ count: 0, lastAttempt: null }` whatever the
table was before, and `body` is the value `checkLoginCredentials` returned. -/
theorem login_success_resets {P E : Type}
    (checkLoginCredentials : String → String → Verdict P E)
    (t : LoginAttempts) (email password : String) (clock : Clock) (status : Nat) (body : P)
    (hok : (login checkLoginCredentials t email password clock).reply = .json status body) :
    (login checkLoginCredentials t email password clock).loginAttempts email =
        some { count := 0, lastAttempt := none } ∧
      checkLoginCredentials email password = .ok (some body) ∧
      status = 200 := by
  unfold login at hok ⊢
  cases hgate : lockCheck t email clock with
  | error err => simp [hgate] at hok
  | ok t1 =>
    cases hv : checkLoginCredentials email password with
    | error e => simp [hgate, hv, afterCheck] at hok
    | ok v =>
      cases v with
      | none => simp [hgate, hv, afterCheck] at hok
      | some p =>
        simp [hgate, hv, afterCheck] at hok
        obtain ⟨hs, hb⟩ := hok
        subst hs hb
        simp [afterCheck, LoginAttempts.set_same]

/-- Witness of C4: three failures on record, then a matching secret. -/
theorem login_success_resets_witness :
    (login (fun _ _ => (.ok (some 7) : Verdict Nat Unit))
        (LoginAttempts.empty.set "a@x.com" { count := 3, lastAttempt := some 5 })
        "a@x.com" "pw" ⟨10, 11, 12, 13⟩).loginAttempts "a@x.com" =
        some { count := 0, lastAttempt := none } ∧
      (fun _ _ => (.ok (some 7) : Verdict Nat Unit)) "a@x.com" "pw" = .ok (some 7) ∧
      200 = 200 :=
  login_success_resets (fun _ _ => (.ok (some 7) : Verdict Nat Unit))
    (LoginAttempts.empty.set "a@x.com" { count := 3, lastAttempt := some 5 })
    "a@x.com" "pw" ⟨10, 11, 12, 13⟩ 200 7
    (by simp [login, lockCheck, LoginAttempts.read, LoginAttempts.set, afterCheck])

/-- C5: when the record of `email` has `count ≥ 5` and at least 1,800,000 ms
(exactly that many included) lie between its `lastAttempt` and the clock
reading of the call, `login` resets the record, calls `checkLoginCredentials`
and never passes the FORBIDDEN error; a truthy answer gives the 200 response
and the record `{ count: 0, lastAttempt: null }`, a falsy answer gives
INVALID_CREDENTIALS and the record `{ count: 1, lastAttempt: now }`. -/
theorem login_after_window {P E : Type} (checkLoginCredentials : String → String → Verdict P E)
    (t : LoginAttempts) (email password : String) (clock : Clock) (a : Attempt)
    (hrec : t email = some a) (hcount : a.count ≥ 5)
    (hwindow : clock.currentTime - toNumber a.lastAttempt ≥ 1800000) :
    lockCheck t email clock = .ok (t.set email { count := 0, lastAttempt := none }) ∧
      (login checkLoginCredentials t email password clock).verifierCalls = [(email, password)] ∧
      (∀ err, (login checkLoginCredentials t email password clock).reply = .next err →
        err.errorType ≠ .FORBIDDEN) ∧
      (∀ p, checkLoginCredentials email password = .ok (some p) →
        (login checkLoginCredentials t email password clock).reply = .json 200 p ∧
        (login checkLoginCredentials t email password clock).loginAttempts email =
          some { count := 0, lastAttempt := none }) ∧
      (checkLoginCredentials email password = .ok none →
        (login checkLoginCredentials t email password clock).reply =
          .next { errorType := .INVALID_CREDENTIALS
                  message := "Wrong email or password"
                  timestamp := clock.failedStamp
                  attemptCount := 1 } ∧
        (login checkLoginCredentials t email password clock).loginAttempts email =
          some { count := 1, lastAttempt := some clock.failedAt }) := by
  have hgate := lockCheck_expired t email clock a hrec hcount hwindow
  refine ⟨hgate, ?_, ?_, ?_, ?_⟩
  · simp [login, hgate]
  · intro err herr
    cases hv : checkLoginCredentials email password with
    | error e => simp [login, hgate, hv, afterCheck] at herr
    | ok v =>
      cases v with
      | none =>
        simp [login, hgate, hv, afterCheck] at herr
        subst herr
        simp
      | some p => simp [login, hgate, hv, afterCheck] at herr
  · intro p hv
    simp [login, hgate, hv, afterCheck, LoginAttempts.set_same]
  · intro hv
    simp [login, hgate, hv, afterCheck,
      recordFailure_record _ email clock _ (LoginAttempts.set_same t email _),
      LoginAttempts.set_same, Count.one_eq]

/-- Witness of C5: five failures, the last at time 0, and a call exactly
1,800,000 ms later. -/
theorem login_after_window_witness :
    lockCheck (LoginAttempts.empty.set "a@x.com" { count := 5, lastAttempt := some 0 })
        "a@x.com" ⟨1800000, 1800001, 1800002, 1800003⟩ =
        .ok ((LoginAttempts.empty.set "a@x.com" { count := 5, lastAttempt := some 0 }).set
          "a@x.com" { count := 0, lastAttempt := none }) ∧
      (login (fun _ pw => (if pw = "pw" then .ok (some 7) else .ok none : Verdict Nat Unit))
        (LoginAttempts.empty.set "a@x.com" { count := 5, lastAttempt := some 0 })
        "a@x.com" "bad" ⟨1800000, 1800001, 1800002, 1800003⟩).loginAttempts "a@x.com" =
        some { count := 1, lastAttempt := some 1800002 } :=
  have h := login_after_window
    (fun _ pw => (if pw = "pw" then .ok (some 7) else .ok none : Verdict Nat Unit))
    (LoginAttempts.empty.set "a@x.com" { count := 5, lastAttempt := some 0 })
    "a@x.com" "bad" ⟨1800000, 1800001, 1800002, 1800003⟩ { count := 5, lastAttempt := some 0 }
    (LoginAttempts.set_same _ _ _) (by decide) (by decide)
  ⟨h.1, (h.2.2.2.2 (by simp)).2⟩

/-- Away from the inherited names: from a table without a record for `email`,
at most five consecutive logins for `email` whose credential checks fail
leave `count` equal to their number; each of them calls `checkLoginCredentials` and is answered with
INVALID_CREDENTIALS (the fifth included).  After five of them, a sixth login
made fewer than 1,800,000 ms after the fifth is answered with FORBIDDEN and
`attemptCount = 5` without the verifier being called, whatever the verifier
would have answered. -/
theorem five_failures_then_lockout {P E : Type} (t : LoginAttempts) (email : String)
    (cs : List (Call P E)) (hplain : email ∉ inheritedNames) (hrec : t email = none)
    (hall : ∀ c ∈ cs, c.email = email ∧ c.checkLoginCredentials email c.password = .ok none)
    (hlen : cs.length ≤ 5) :
    failureCount (run t cs) email = cs.length ∧
      (∀ (k : Nat) (c : Call P E), cs.get? k = some c →
        (c.outcome (run t (cs.take k))).verifierCalls = [(email, c.password)] ∧
        (c.outcome (run t (cs.take k))).reply =
          .next { errorType := .INVALID_CREDENTIALS
                  message := "Wrong email or password"
                  timestamp := c.clock.failedStamp
                  attemptCount := k + 1 }) ∧
      (cs.length = 5 → ∀ fifth sixth : Call P E, cs.getLast? = some fifth →
        sixth.email = email →
        sixth.clock.currentTime - fifth.clock.failedAt < 1800000 →
        (sixth.outcome (run t cs)).reply =
          .next { errorType := .FORBIDDEN
                  message := "Too many failed login attempts"
                  timestamp := sixth.clock.lockedStamp
                  attemptCount := 5 } ∧
        (sixth.outcome (run t cs)).verifierCalls = []) := by
  have h0 : failureCount t email = 0 := by simp [failureCount, hrec]
  refine ⟨?_, ?_, ?_⟩
  · rw [run_failures_count email hplain cs t hall (by omega), h0]
    omega
  · intro k c hk
    have hklt : k < cs.length := by
      rcases List.get?_eq_some.mp hk with ⟨h, _⟩
      exact h
    have hmem : c ∈ cs := List.get?_mem hk
    obtain ⟨hmail, hfail⟩ := hall c hmem
    have hpre : failureCount (run t (cs.take k)) email = k := by
      rw [run_failures_count email hplain (cs.take k) t
        (fun d hd => hall d (List.mem_of_mem_take hd))
        (by rw [List.length_take]; omega), h0, List.length_take]
      omega
    have hstep := login_failure_step c.checkLoginCredentials (run t (cs.take k)) email
      c.password c.clock hplain (by omega) hfail
    simp [Call.outcome, hmail, hstep, hpre, Count.num_add_one]
  · intro h5 fifth sixth hlast hmail hwin
    have hr := run_failures_record email hplain cs t hall (by omega) fifth hlast
    rw [h0, h5] at hr
    have hgate := lockCheck_locked (run t cs) email sixth.clock _ hr (by simp)
      (by simpa [toNumber] using hwin)
    simp [Call.outcome, login, hmail, hgate, Count.five_eq]

/-- Five wrong passwords for `a@x.com` within two minutes, then the right
password at minute three: the sixth login is locked out. -/
theorem five_failures_then_lockout_example :
    failureCount (run LoginAttempts.empty
        [demoCall "a@x.com" "b1" 0, demoCall "a@x.com" "b2" 30000, demoCall "a@x.com" "b3" 60000,
         demoCall "a@x.com" "b4" 90000, demoCall "a@x.com" "b5" 120000]) "a@x.com" = 5 ∧
      ((demoCall "a@x.com" "pw" 180000).outcome (run LoginAttempts.empty
        [demoCall "a@x.com" "b1" 0, demoCall "a@x.com" "b2" 30000, demoCall "a@x.com" "b3" 60000,
         demoCall "a@x.com" "b4" 90000, demoCall "a@x.com" "b5" 120000])).reply =
        .next { errorType := .FORBIDDEN
                message := "Too many failed login attempts"
                timestamp := 180000
                attemptCount := 5 } :=
  have h := five_failures_then_lockout LoginAttempts.empty "a@x.com"
    [demoCall "a@x.com" "b1" 0, demoCall "a@x.com" "b2" 30000, demoCall "a@x.com" "b3" 60000,
     demoCall "a@x.com" "b4" 90000, demoCall "a@x.com" "b5" 120000]
    (by decide) rfl (by simp [demoCall, demoVerifier]) (by decide)
  ⟨h.1, (h.2.2 rfl (demoCall "a@x.com" "b5" 120000) (demoCall "a@x.com" "pw" 180000) rfl rfl
    (by decide)).1⟩

/-- A failed login for a key that has no record and reads as an inherited
function leaves the table as it was and is answered with `NaN`. -/
theorem login_inherited_function {P E : Type}
    (checkLoginCredentials : String → String → Verdict P E)
    (t : LoginAttempts) (email password : String) (clock : Clock)
    (hfun : email ∈ objectPrototypeFunctions) (hrec : t email = none)
    (hfail : checkLoginCredentials email password = .ok none) :
    login checkLoginCredentials t email password clock =
      { loginAttempts := t
        verifierCalls := [(email, password)]
        reply := .next { errorType := .INVALID_CREDENTIALS
                         message := "Wrong email or password"
                         timestamp := clock.failedStamp
                         attemptCount := .nan } } := by
  have hread : t.read email = .object := by
    have h1 : email ≠ "__proto__" := by
      rintro rfl
      simp [objectPrototypeFunctions] at hfun
    have h2 : email ≠ "count" := by
      rintro rfl
      simp [objectPrototypeFunctions] at hfun
    have h3 : email ≠ "lastAttempt" := by
      rintro rfl
      simp [objectPrototypeFunctions] at hfun
    have h4 : t.records email = none := hrec
    simp [LoginAttempts.read, h4, h1, h2, h3, hfun]
  simp [login, lockCheck_none t email clock hrec, hfail, afterCheck, recordFailure, hread]

/-- C6 does not hold of the code.  From the empty table, the five wrong
passwords of `fiveForConstructor` for the identity `constructor` leave the
table empty and the count at 0, not 5: the first of them is answered with
INVALID_CREDENTIALS and `attemptCount` `NaN`.  A sixth login three minutes
after the first is not locked out: the verifier is called and the answer is
INVALID_CREDENTIALS with `attemptCount` `NaN` once more. -/
theorem constructor_never_locked :
    LoginAttempts.empty "constructor" = none ∧
      (∀ c ∈ fiveForConstructor, c.email = "constructor" ∧
        c.checkLoginCredentials "constructor" c.password = .ok none) ∧
      ((demoCall "constructor" "b1" 0).outcome LoginAttempts.empty).reply =
        .next { errorType := .INVALID_CREDENTIALS
                message := "Wrong email or password"
                timestamp := 0
                attemptCount := .nan } ∧
      run LoginAttempts.empty fiveForConstructor = LoginAttempts.empty ∧
      failureCount (run LoginAttempts.empty fiveForConstructor) "constructor" = 0 ∧
      ((demoCall "constructor" "b6" 180000).outcome
          (run LoginAttempts.empty fiveForConstructor)).verifierCalls =
        [("constructor", "b6")] ∧
      ((demoCall "constructor" "b6" 180000).outcome
          (run LoginAttempts.empty fiveForConstructor)).reply =
        .next { errorType := .INVALID_CREDENTIALS
                message := "Wrong email or password"
                timestamp := 180000
                attemptCount := .nan } := by
  have hstep : ∀ (pw : String) (ms : Int),
      (demoCall "constructor" pw ms).outcome LoginAttempts.empty =
        { loginAttempts := LoginAttempts.empty
          verifierCalls := [("constructor", pw)]
          reply := .next { errorType := .INVALID_CREDENTIALS
                           message := "Wrong email or password"
                           timestamp := ms
                           attemptCount := .nan } } := by
    intro pw ms
    exact login_inherited_function demoVerifier LoginAttempts.empty "constructor" pw
      ⟨ms, ms, ms, ms⟩ (by decide) rfl (by simp [demoVerifier])
  have hrun : run LoginAttempts.empty fiveForConstructor = LoginAttempts.empty := by
    simp [fiveForConstructor, run, hstep]
  refine ⟨rfl, by simp [fiveForConstructor, demoCall, demoVerifier], ?_, hrun, ?_, ?_, ?_⟩
  · rw [hstep]
  · rw [hrun]
    rfl
  · rw [hrun, hstep]
  · rw [hrun, hstep]

/-- C7: in every table reached from the empty table by a sequence of `login`
calls, whatever their identities, secrets, verifier answers and clock readings,
every record with `count = 0` has `lastAttempt` absent. -/
theorem zero_count_has_no_time {P E : Type} (cs : List (Call P E)) (email : String)
    (a : Attempt) (hrec : run LoginAttempts.empty cs email = some a) (hzero : a.count = 0) :
    a.lastAttempt = none := by
  have key : ∀ (cs : List (Call P E)) (t : LoginAttempts),
      (∀ k a, t k = some a → a.count = 0 → a.lastAttempt = none) →
      ∀ k a, run t cs k = some a → a.count = 0 → a.lastAttempt = none := by
    intro cs
    induction cs with
    | nil => intro t hinv; simpa [run] using hinv
    | cons c cs ih =>
      intro t hinv
      simp only [run]
      exact ih _ (login_keeps_zero_clear c.checkLoginCredentials t c.email c.password c.clock hinv)
  exact key cs LoginAttempts.empty (fun k a h => by simp [LoginAttempts.empty] at h) email a
    hrec hzero

/-- Witness of C7: two wrong passwords, then the right one. -/
theorem zero_count_has_no_time_witness :
    run LoginAttempts.empty
        [demoCall "a@x.com" "b1" 0, demoCall "a@x.com" "b2" 30000, demoCall "a@x.com" "pw" 60000]
        "a@x.com" = some ⟨0, none⟩ ∧
      (⟨0, none⟩ : Attempt).lastAttempt = none :=
  have h : run LoginAttempts.empty
      [demoCall "a@x.com" "b1" 0, demoCall "a@x.com" "b2" 30000, demoCall "a@x.com" "pw" 60000]
      "a@x.com" = some ⟨0, none⟩ := by
    simp [run, Call.outcome, demoCall, demoVerifier, login, lockCheck, afterCheck,
      recordFailure, LoginAttempts.read, objectPrototypeFunctions, LoginAttempts.set,
      LoginAttempts.empty]
  ⟨h, zero_count_has_no_time _ "a@x.com" ⟨0, none⟩ h rfl⟩

/-- C8, as the handler has it: over one call of `login` for `email`, if the
count of `email` is greater after the call than before, the credential check
of the call failed and the reply is INVALID_CREDENTIALS; if it is smaller, the
call was a successful login, after which the count is 0, or a call made once
the 30-minute window had expired, after which the count is 0, or 1 when the
credential check of that call failed. -/
theorem count_change_reasons {P E : Type}
    (checkLoginCredentials : String → String → Verdict P E)
    (t : LoginAttempts) (email password : String) (clock : Clock) :
    (failureCount (login checkLoginCredentials t email password clock).loginAttempts email >
        failureCount t email →
      checkLoginCredentials email password = .ok none ∧
      (login checkLoginCredentials t email password clock).reply =
        .next { errorType := .INVALID_CREDENTIALS
                message := "Wrong email or password"
                timestamp := clock.failedStamp
                attemptCount :=
                  failureCount (login checkLoginCredentials t email password clock).loginAttempts
                    email }) ∧
    (failureCount (login checkLoginCredentials t email password clock).loginAttempts email <
        failureCount t email →
      (failureCount (login checkLoginCredentials t email password clock).loginAttempts email = 0 ∧
        ∃ p, checkLoginCredentials email password = .ok (some p) ∧
          (login checkLoginCredentials t email password clock).reply = .json 200 p) ∨
      (∃ a, t email = some a ∧ a.count ≥ 5 ∧
        clock.currentTime - toNumber a.lastAttempt ≥ 1800000 ∧
        (failureCount (login checkLoginCredentials t email password clock).loginAttempts email
            = 0 ∨
          (failureCount (login checkLoginCredentials t email password clock).loginAttempts email
              = 1 ∧
            checkLoginCredentials email password = .ok none)))) := by
  cases hrec : t email with
  | none =>
    have hgate := lockCheck_none t email clock hrec
    have hrec0 : t.records email = none := hrec
    cases hv : checkLoginCredentials email password with
    | error e => simp [login, hgate, hv, afterCheck, failureCount, hrec0]
    | ok v =>
      cases v with
      | some p => simp [login, hgate, hv, afterCheck, failureCount, hrec0, LoginAttempts.set_same]
      | none =>
        rcases recordFailure_none_cases t email clock hrec with ⟨h2, _⟩ | h2
        · simp [login, hgate, hv, afterCheck, failureCount, hrec0, h2]
        · simp [login, hgate, hv, afterCheck, failureCount, hrec0, h2, LoginAttempts.set_same]
  | some a =>
    have hrec0 : t.records email = some a := hrec
    by_cases hc : a.count ≥ 5
    · by_cases hd : clock.currentTime - toNumber a.lastAttempt ≥ 1800000
      · have hgate := lockCheck_expired t email clock a hrec hc hd
        have hnot : ¬ a.count < 1 := by omega
        cases hv : checkLoginCredentials email password with
        | error e =>
          simp [login, hgate, hv, afterCheck, failureCount, hrec0, LoginAttempts.set_same, hc, hd]
        | ok v =>
          cases v <;>
            simp [login, hgate, hv, afterCheck,
              recordFailure_record _ email clock _ (LoginAttempts.set_same t email _),
              failureCount, hrec0, LoginAttempts.set_same, hc, hd, hnot]
      · have hgate := lockCheck_locked t email clock a hrec hc (by omega)
        simp [login, hgate, failureCount, hrec0]
    · have hgate := lockCheck_below t email clock a hrec (by omega)
      cases hv : checkLoginCredentials email password with
      | error e => simp [login, hgate, hv, afterCheck, failureCount, hrec0]
      | ok v =>
        cases v <;>
          simp [login, hgate, hv, afterCheck, recordFailure_record t email clock a hrec,
            failureCount, hrec0, LoginAttempts.set_same]

/-- C8 fails as stated: after `fiveFailures` the count of `a@x.com` is 5; a
wrong password tried 32 minutes after time 0, past the window, leaves the
count at 1, which is smaller than 5 and is not 0. -/
theorem count_drops_to_one :
    failureCount (run LoginAttempts.empty fiveFailures) "a@x.com" = 5 ∧
      failureCount ((demoCall "a@x.com" "bad" 1920000).outcome
        (run LoginAttempts.empty fiveFailures)).loginAttempts "a@x.com" = 1 ∧
      ¬ (failureCount ((demoCall "a@x.com" "bad" 1920000).outcome
            (run LoginAttempts.empty fiveFailures)).loginAttempts "a@x.com" <
          failureCount (run LoginAttempts.empty fiveFailures) "a@x.com" →
        failureCount ((demoCall "a@x.com" "bad" 1920000).outcome
            (run LoginAttempts.empty fiveFailures)).loginAttempts "a@x.com" = 0) := by
  have hrun : run LoginAttempts.empty fiveFailures "a@x.com" = some ⟨5, some 120000⟩ := by
    simp [fiveFailures, run, Call.outcome, demoCall, demoVerifier, login, lockCheck, afterCheck,
      recordFailure, LoginAttempts.read, objectPrototypeFunctions, LoginAttempts.set,
      LoginAttempts.empty]
  have hbefore : failureCount (run LoginAttempts.empty fiveFailures) "a@x.com" = 5 := by
    simp [failureCount, hrun]
  have hgate := lockCheck_expired (run LoginAttempts.empty fiveFailures) "a@x.com"
    ⟨1920000, 1920000, 1920000, 1920000⟩ ⟨5, some 120000⟩ hrun (by decide) (by decide)
  have hafter : failureCount ((demoCall "a@x.com" "bad" 1920000).outcome
      (run LoginAttempts.empty fiveFailures)).loginAttempts "a@x.com" = 1 := by
    simp [Call.outcome, demoCall, demoVerifier, login, hgate, afterCheck,
      recordFailure_record _ "a@x.com" _ _ (LoginAttempts.set_same _ "a@x.com" _),
      LoginAttempts.set_same, failureCount]
  refine ⟨hbefore, hafter, ?_⟩
  rw [hafter, hbefore]
  decide

/-- Witness of the amended C8: the first wrong password for `a@x.com` raises
the count from 0 to 1, and the credential check of that call failed. -/
theorem count_change_reasons_witness :
    demoVerifier "a@x.com" "bad" = .ok none ∧
      (login demoVerifier LoginAttempts.empty "a@x.com" "bad" ⟨10, 11, 12, 13⟩).reply =
        .next { errorType := .INVALID_CREDENTIALS
                message := "Wrong email or password"
                timestamp := 13
                attemptCount :=
                  failureCount (login demoVerifier LoginAttempts.empty "a@x.com" "bad"
                    ⟨10, 11, 12, 13⟩).loginAttempts "a@x.com" } :=
  (count_change_reasons demoVerifier LoginAttempts.empty "a@x.com" "bad" ⟨10, 11, 12, 13⟩).1
    (by simp [login, lockCheck, afterCheck, recordFailure, demoVerifier, failureCount,
      LoginAttempts.read, objectPrototypeFunctions, LoginAttempts.set, LoginAttempts.empty])

/-- C9 fails as stated: on the empty table a login for `a@x.com` with the right
password is answered with 200, no login has failed, and the table afterwards
holds the record `{ count: 0, lastAttempt: null }` for `a@x.com`. -/
theorem record_without_failure :
    LoginAttempts.empty "a@x.com" = none ∧
      ((demoCall "a@x.com" "pw" 0).outcome LoginAttempts.empty).reply = .json 200 7 ∧
      ((demoCall "a@x.com" "pw" 0).outcome LoginAttempts.empty).loginAttempts "a@x.com" =
        some { count := 0, lastAttempt := none } ∧
      ¬ (run LoginAttempts.empty [demoCall "a@x.com" "pw" 0] "a@x.com" = none) := by
  simp [run, Call.outcome, demoCall, demoVerifier, login, lockCheck, afterCheck,
    LoginAttempts.read, objectPrototypeFunctions, LoginAttempts.set, LoginAttempts.empty]

/-- C9, as the handler has it: in a table reached from the empty table by a
sequence of `login` calls, an identity has a record only if the verifier
answered an earlier login for that identity, with a match or with a failed
check; and a login that succeeds for an identity without a record leaves the
record `{ count: 0, lastAttempt: null }` for it. -/
theorem record_needs_answered_login {P E : Type} (cs : List (Call P E)) (email : String)
    (hrec : run LoginAttempts.empty cs email ≠ none) :
    (∃ c ∈ cs, c.email = email ∧ ∃ v, c.checkLoginCredentials c.email c.password = .ok v) ∧
      ∀ (checkLoginCredentials : String → String → Verdict P E) (t : LoginAttempts)
        (password : String) (clock : Clock) (p : P),
        t email = none → checkLoginCredentials email password = .ok (some p) →
        (login checkLoginCredentials t email password clock).reply = .json 200 p ∧
        (login checkLoginCredentials t email password clock).loginAttempts email =
          some { count := 0, lastAttempt := none } := by
  constructor
  · have key : ∀ (cs : List (Call P E)) (t : LoginAttempts), run t cs email ≠ none →
        t email ≠ none ∨
        ∃ c ∈ cs, c.email = email ∧ ∃ v, c.checkLoginCredentials c.email c.password = .ok v := by
      intro cs
      induction cs with
      | nil => intro t h; exact Or.inl (by simpa [run] using h)
      | cons c cs ih =>
        intro t h
        simp only [run] at h
        rcases ih _ h with h1 | ⟨d, hd, hmail, hv⟩
        · by_cases ht : t email = none
          · right
            refine ⟨c, List.mem_cons_self _ _, ?_⟩
            by_cases hm : email = c.email
            · refine ⟨hm.symm, ?_⟩
              cases hv : c.checkLoginCredentials c.email c.password with
              | ok v => exact ⟨v, rfl⟩
              | error e =>
                exfalso
                apply h1
                subst hm
                have ht0 : t.records c.email = none := ht
                simp [Call.outcome, login, lockCheck_none t c.email c.clock ht, hv, afterCheck,
                  ht0]
            · exfalso
              apply h1
              rw [Call.outcome, login_other_key _ _ _ _ _ _ hm]
              exact ht
          · exact Or.inl ht
        · exact Or.inr ⟨d, List.mem_cons_of_mem _ hd, hmail, hv⟩
    rcases key cs LoginAttempts.empty hrec with h | h
    · exact absurd rfl h
    · exact h
  · intro checkLoginCredentials t password clock p ht hv
    simp [login, lockCheck_none t email clock ht, hv, afterCheck, LoginAttempts.set_same]

/-- Witness of the amended C9: one successful login for `a@x.com` on the empty
table. -/
theorem record_needs_answered_login_witness :
    ∃ c ∈ [demoCall "a@x.com" "pw" 0],
      c.email = "a@x.com" ∧ ∃ v, c.checkLoginCredentials c.email c.password = .ok v :=
  (record_needs_answered_login [demoCall "a@x.com" "pw" 0] "a@x.com"
    (by simp [run, Call.outcome, demoCall, demoVerifier, login, lockCheck, afterCheck,
      LoginAttempts.read, objectPrototypeFunctions, LoginAttempts.set,
      LoginAttempts.empty])).1

/-- Away from the inherited names: for two distinct identities A and B, a
`login` call for A leaves what B reads exactly as it was, whatever the outcome
of the call; and the reply, the calls to the verifier and the record left for
A are the same from any two tables that agree on the record of A. -/
theorem login_other_identity {P E : Type}
    (checkLoginCredentials : String → String → Verdict P E)
    (t t2 : LoginAttempts) (A B password : String) (clock : Clock)
    (hplain : A ∉ inheritedNames) (hne : A ≠ B) (hsame : t A = t2 A) :
    (login checkLoginCredentials t A password clock).loginAttempts.read B = t.read B ∧
      (login checkLoginCredentials t A password clock).loginAttempts B = t B ∧
      (login checkLoginCredentials t A password clock).reply =
        (login checkLoginCredentials t2 A password clock).reply ∧
      (login checkLoginCredentials t A password clock).verifierCalls =
        (login checkLoginCredentials t2 A password clock).verifierCalls ∧
      (login checkLoginCredentials t A password clock).loginAttempts A =
        (login checkLoginCredentials t2 A password clock).loginAttempts A :=
  ⟨login_other_read checkLoginCredentials t A password clock B hplain (Ne.symm hne),
    login_other_key checkLoginCredentials t A password clock B (Ne.symm hne),
    login_reads_own_entry checkLoginCredentials t t2 A password clock hplain hsame⟩

/-- C10 does not hold of the code.  On the empty table the key `lastAttempt`
reads as missing.  A login for `__proto__` whose credential check comes back
falsy runs lines 50 and 51 on `Object.prototype`, after which the key
`lastAttempt` reads as an inherited `Date`.  And the outcome of a failed login
for `lastAttempt` depends on it: from the empty table it is answered with
`attemptCount` 1 and leaves a record, after the login for `__proto__` it is
answered with `attemptCount` `NaN` and leaves none. -/
theorem proto_login_changes_other_key :
    LoginAttempts.empty.read "lastAttempt" = .missing ∧
      (login demoVerifier LoginAttempts.empty "__proto__" "bad"
        ⟨10, 11, 12, 13⟩).loginAttempts.read "lastAttempt" = .object ∧
      (login demoVerifier LoginAttempts.empty "lastAttempt" "bad" ⟨20, 21, 22, 23⟩).reply =
        .next { errorType := .INVALID_CREDENTIALS
                message := "Wrong email or password"
                timestamp := 23
                attemptCount := 1 } ∧
      (login demoVerifier LoginAttempts.empty "lastAttempt" "bad"
        ⟨20, 21, 22, 23⟩).loginAttempts "lastAttempt" = some ⟨1, some 22⟩ ∧
      (login demoVerifier
        (login demoVerifier LoginAttempts.empty "__proto__" "bad" ⟨10, 11, 12, 13⟩).loginAttempts
        "lastAttempt" "bad" ⟨20, 21, 22, 23⟩).reply =
        .next { errorType := .INVALID_CREDENTIALS
                message := "Wrong email or password"
                timestamp := 23
                attemptCount := .nan } ∧
      (login demoVerifier
        (login demoVerifier LoginAttempts.empty "__proto__" "bad" ⟨10, 11, 12, 13⟩).loginAttempts
        "lastAttempt" "bad" ⟨20, 21, 22, 23⟩).loginAttempts "lastAttempt" = none := by
  simp [login, lockCheck, afterCheck, recordFailure, LoginAttempts.read, LoginAttempts.set,
    LoginAttempts.empty, objectPrototypeFunctions, demoVerifier, Count.one_eq]

/-- C11: when `checkLoginCredentials` rejects with `e`, a `login` that called
it passes that same `e` to `next`; whether or not it was called, the reply is
not INVALID_CREDENTIALS and the count of no identity is greater after the call
than before. -/
theorem verifier_error_passed_on {P E : Type}
    (checkLoginCredentials : String → String → Verdict P E)
    (t : LoginAttempts) (email password : String) (clock : Clock) (e : E)
    (hthrow : checkLoginCredentials email password = .error e) :
    ((login checkLoginCredentials t email password clock).verifierCalls = [(email, password)] →
        (login checkLoginCredentials t email password clock).reply = .nextThrown e) ∧
      (∀ err, (login checkLoginCredentials t email password clock).reply = .next err →
        err.errorType ≠ .INVALID_CREDENTIALS) ∧
      ∀ k, failureCount (login checkLoginCredentials t email password clock).loginAttempts k ≤
        failureCount t k := by
  cases hgate : lockCheck t email clock with
  | error err =>
    obtain ⟨a, _, _, _, herr⟩ := lockCheck_error_cases t email clock err hgate
    refine ⟨by simp [login, hgate], ?_, by simp [login, hgate]⟩
    intro err2 h2
    simp [login, hgate] at h2
    subst h2 herr
    simp
  | ok t1 =>
    refine ⟨by simp [login, hgate, hthrow, afterCheck], by simp [login, hgate, hthrow, afterCheck],
      ?_⟩
    intro k
    have htab : (login checkLoginCredentials t email password clock).loginAttempts = t1 := by
      simp [login, hgate, hthrow, afterCheck]
    rw [htab]
    rcases lockCheck_ok_cases t t1 email clock hgate with h | ⟨h, _⟩
    · rw [h]
    · rw [h]
      by_cases hk : k = email
      · subst hk
        rw [failureCount_set_same]
        exact Nat.zero_le _
      · simp [failureCount, LoginAttempts.set_other _ _ _ _ hk]

/-- Witness of C11: two failures on record for `a@x.com`, then a login while
the verifier's storage is down. -/
theorem verifier_error_passed_on_witness :
    (login downVerifier (LoginAttempts.empty.set "a@x.com" ⟨2, some 5⟩)
        "a@x.com" "pw" ⟨10, 11, 12, 13⟩).reply = .nextThrown () ∧
      failureCount (login downVerifier (LoginAttempts.empty.set "a@x.com" ⟨2, some 5⟩)
        "a@x.com" "pw" ⟨10, 11, 12, 13⟩).loginAttempts "a@x.com" ≤
        failureCount (LoginAttempts.empty.set "a@x.com" ⟨2, some 5⟩) "a@x.com" :=
  have h := verifier_error_passed_on downVerifier
    (LoginAttempts.empty.set "a@x.com" ⟨2, some 5⟩) "a@x.com" "pw" ⟨10, 11, 12, 13⟩ () rfl
  ⟨h.1 (by simp [login, lockCheck, LoginAttempts.read, LoginAttempts.set]), h.2.2 "a@x.com"⟩

/-- C12 fails as stated: after `fiveFailures`, a login for `a@x.com` made 32
minutes after time 0 resets the record before the verifier is called; the
verifier then rejects, and the table after the call differs from the table
before it. -/
theorem table_reset_before_verdict :
    run LoginAttempts.empty fiveFailures "a@x.com" = some ⟨5, some 120000⟩ ∧
      lockCheck (run LoginAttempts.empty fiveFailures) "a@x.com"
          ⟨1920000, 1920000, 1920000, 1920000⟩ =
        .ok ((run LoginAttempts.empty fiveFailures).set "a@x.com" ⟨0, none⟩) ∧
      (login downVerifier (run LoginAttempts.empty fiveFailures) "a@x.com" "pw"
        ⟨1920000, 1920000, 1920000, 1920000⟩).reply = .nextThrown () ∧
      (login downVerifier (run LoginAttempts.empty fiveFailures) "a@x.com" "pw"
        ⟨1920000, 1920000, 1920000, 1920000⟩).loginAttempts "a@x.com" = some ⟨0, none⟩ ∧
      (login downVerifier (run LoginAttempts.empty fiveFailures) "a@x.com" "pw"
        ⟨1920000, 1920000, 1920000, 1920000⟩).loginAttempts ≠
        run LoginAttempts.empty fiveFailures := by
  have hrun : run LoginAttempts.empty fiveFailures "a@x.com" = some ⟨5, some 120000⟩ := by
    simp [fiveFailures, run, Call.outcome, demoCall, demoVerifier, login, lockCheck, afterCheck,
      recordFailure, LoginAttempts.read, objectPrototypeFunctions, LoginAttempts.set,
      LoginAttempts.empty]
  have hgate := lockCheck_expired (run LoginAttempts.empty fiveFailures) "a@x.com"
    ⟨1920000, 1920000, 1920000, 1920000⟩ ⟨5, some 120000⟩ hrun (by decide) (by decide)
  have hafter : (login downVerifier (run LoginAttempts.empty fiveFailures) "a@x.com" "pw"
      ⟨1920000, 1920000, 1920000, 1920000⟩).loginAttempts "a@x.com" = some ⟨0, none⟩ := by
    simp [login, hgate, downVerifier, afterCheck, LoginAttempts.set_same]
  refine ⟨hrun, hgate, by simp [login, hgate, downVerifier, afterCheck], hafter, ?_⟩
  intro heq
  rw [heq, hrun] at hafter
  simp at hafter

/-- C12, as the handler has it: the table with which `checkLoginCredentials`
is called is the table at entry to `login`, except that a record at or over
the threshold whose 30-minute window has expired has been reset to
`{ count: 0, lastAttempt: null }`; and when the verifier rejects, the table
after the call is the table with which it was called. -/
theorem table_at_verifier_call {P E : Type}
    (checkLoginCredentials : String → String → Verdict P E)
    (t t1 : LoginAttempts) (email password : String) (clock : Clock)
    (hgate : lockCheck t email clock = .ok t1) :
    ((∃ a, t email = some a ∧ a.count ≥ 5 ∧
          clock.currentTime - toNumber a.lastAttempt ≥ 1800000) →
        t1 = t.set email { count := 0, lastAttempt := none }) ∧
      (¬ (∃ a, t email = some a ∧ a.count ≥ 5 ∧
          clock.currentTime - toNumber a.lastAttempt ≥ 1800000) → t1 = t) ∧
      ∀ e, checkLoginCredentials email password = .error e →
        (login checkLoginCredentials t email password clock).loginAttempts = t1 := by
  refine ⟨?_, ?_, ?_⟩
  · rintro ⟨a, hrec, hc, hd⟩
    have h := lockCheck_expired t email clock a hrec hc hd
    rw [hgate] at h
    exact Except.ok.inj h
  · intro hno
    rcases lockCheck_ok_cases t t1 email clock hgate with h | ⟨_, hex⟩
    · exact h
    · exact absurd hex hno
  · intro e hthrow
    simp [login, hgate, hthrow, afterCheck]

/-- Witness of the amended C12: two failures on record, nothing to reset, and
the verifier is called with the table as it was at entry. -/
theorem table_at_verifier_call_witness :
    (login downVerifier (LoginAttempts.empty.set "a@x.com" ⟨2, some 5⟩) "a@x.com" "pw"
      ⟨10, 11, 12, 13⟩).loginAttempts = LoginAttempts.empty.set "a@x.com" ⟨2, some 5⟩ :=
  (table_at_verifier_call downVerifier (LoginAttempts.empty.set "a@x.com" ⟨2, some 5⟩)
    (LoginAttempts.empty.set "a@x.com" ⟨2, some 5⟩) "a@x.com" "pw" ⟨10, 11, 12, 13⟩
    (lockCheck_below _ _ _ ⟨2, some 5⟩ (LoginAttempts.set_same _ _ _) (by decide))).2.2 () rfl

/-- C13: a `login` answered with the lockout error leaves the whole table as
it was.  So for a record at or over the threshold, any number of logins made
inside its window leave the table unchanged, count and `lastAttempt` included,
and after them a login is locked out exactly when fewer than 1,800,000 ms
separate it from that `lastAttempt`. -/
theorem lockout_leaves_table {P E : Type} (t : LoginAttempts) (email : String) (a : Attempt)
    (cs : List (Call P E)) (hrec : t email = some a) (hcount : a.count ≥ 5)
    (hall : ∀ c ∈ cs, c.email = email ∧
      c.clock.currentTime - toNumber a.lastAttempt < 1800000) :
    (∀ (checkLoginCredentials : String → String → Verdict P E) (t0 : LoginAttempts)
        (email0 password : String) (clock : Clock) (err : ResponderError),
        (login checkLoginCredentials t0 email0 password clock).reply = .next err →
        err.errorType = .FORBIDDEN →
        (login checkLoginCredentials t0 email0 password clock).loginAttempts = t0) ∧
      run t cs = t ∧
      ∀ later : Clock, (∃ err, lockCheck (run t cs) email later = .error err) ↔
        later.currentTime - toNumber a.lastAttempt < 1800000 := by
  have hrun : ∀ cs : List (Call P E),
      (∀ c ∈ cs, c.email = email ∧ c.clock.currentTime - toNumber a.lastAttempt < 1800000) →
      run t cs = t := by
    intro cs
    induction cs with
    | nil => intro _; rfl
    | cons c cs ih =>
      intro h
      obtain ⟨hmail, hwin⟩ := h c (List.mem_cons_self _ _)
      have hgate := lockCheck_locked t email c.clock a hrec hcount hwin
      have hstep : (c.outcome t).loginAttempts = t := by
        simp [Call.outcome, login, hmail, hgate]
      simp only [run, hstep]
      exact ih (fun d hd => h d (List.mem_cons_of_mem _ hd))
  refine ⟨?_, hrun cs hall, ?_⟩
  · intro checkLoginCredentials t0 email0 password clock err hreply hforbidden
    cases hgate : lockCheck t0 email0 clock with
    | error err0 => simp [login, hgate]
    | ok t1 =>
      exfalso
      cases hv : checkLoginCredentials email0 password with
      | error e => simp [login, hgate, hv, afterCheck] at hreply
      | ok v =>
        cases v with
        | none =>
          simp [login, hgate, hv, afterCheck] at hreply
          subst hreply
          simp at hforbidden
        | some p => simp [login, hgate, hv, afterCheck] at hreply
  · intro later
    rw [hrun cs hall]
    constructor
    · rintro ⟨err, herr⟩
      obtain ⟨b, hb, _, hwin, _⟩ := lockCheck_error_cases t email later err herr
      rw [hrec] at hb
      cases hb
      exact hwin
    · intro hwin
      exact ⟨_, lockCheck_locked t email later a hrec hcount hwin⟩

/-- Witness of C13: after `fiveFailures`, two logins inside the window, one of
them with the right password, leave the table as it was. -/
theorem lockout_leaves_table_witness :
    run (run LoginAttempts.empty fiveFailures)
        [demoCall "a@x.com" "pw" 180000, demoCall "a@x.com" "bad" 1919999] =
      run LoginAttempts.empty fiveFailures :=
  (lockout_leaves_table (run LoginAttempts.empty fiveFailures) "a@x.com" ⟨5, some 120000⟩
    [demoCall "a@x.com" "pw" 180000, demoCall "a@x.com" "bad" 1919999]
    (by simp [fiveFailures, run, Call.outcome, demoCall, demoVerifier, login, lockCheck,
      afterCheck, recordFailure, LoginAttempts.read, objectPrototypeFunctions,
      LoginAttempts.set, LoginAttempts.empty])
    (by decide)
    (by simp [demoCall, toNumber])).2.1

/-- C14 fails as stated: the seven failed requests of `raceCalls` start from
the empty table and overlap; the lock check of the seventh finds the window of
the fifth failure expired and resets the record while the sixth still waits
for the verifier.  The update steps leave the counts 1, 2, 3, 4, 5, 1, 2: two
requests leave the same count, and the final count is 2 after seven update
steps. -/
theorem concurrent_counts_repeat :
    (∀ c ∈ raceCalls, c.email = "a@x.com" ∧
        c.checkLoginCredentials "a@x.com" c.password = .ok none) ∧
      (Pool.run raceCalls (Pool.start LoginAttempts.empty) raceSchedule).written =
        [(0, 1), (1, 2), (2, 3), (3, 4), (4, 5), (5, 1), (6, 2)] ∧
      ¬ ((Pool.run raceCalls (Pool.start LoginAttempts.empty) raceSchedule).written.map
        Prod.snd).Nodup ∧
      failureCount (Pool.run raceCalls (Pool.start LoginAttempts.empty) raceSchedule).loginAttempts
        "a@x.com" = 2 ∧
      (Pool.run raceCalls (Pool.start LoginAttempts.empty) raceSchedule).written.length = 7 := by
  have hw : (Pool.run raceCalls (Pool.start LoginAttempts.empty) raceSchedule).written =
      [(0, 1), (1, 2), (2, 3), (3, 4), (4, 5), (5, 1), (6, 2)] := by
    simp [raceCalls, raceSchedule, raceCall, Pool.run, Pool.step, Pool.start, demoVerifier,
      lockCheck, afterCheck, recordFailure, failureCount, LoginAttempts.read,
      objectPrototypeFunctions, LoginAttempts.set, LoginAttempts.empty, timeDiff_ge_iff,
      toNumber]
    decide
  refine ⟨by simp [raceCalls, raceCall, demoVerifier], hw, ?_, ?_, ?_⟩
  · rw [hw]
    decide
  · simp [raceCalls, raceSchedule, raceCall, Pool.run, Pool.step, Pool.start, demoVerifier,
      lockCheck, afterCheck, recordFailure, failureCount, LoginAttempts.read,
      objectPrototypeFunctions, LoginAttempts.set, LoginAttempts.empty, timeDiff_ge_iff,
      toNumber]
  · rw [hw]
    rfl

/-- C14, as the handler has it: failed login attempts for one identity, none
of the inherited names, start from a count of 0 and run interleaved in any
order, each split at its `await` into the lock-check step and the update step;
every lock check reads the clock less than 1,800,000 ms after every update
step does.  Then no two update steps leave the same count, no request runs its
update step twice, and the final count is the number of update steps run. -/
theorem concurrent_failures_counted {P E : Type} (calls : List (Call P E)) (email : String)
    (t : LoginAttempts) (schedule : List Nat) (hplain : email ∉ inheritedNames)
    (hclear : failureCount t email = 0)
    (hall : ∀ c ∈ calls, c.email = email ∧ c.checkLoginCredentials email c.password = .ok none)
    (hwin : ∀ c ∈ calls, ∀ d ∈ calls, c.clock.currentTime - d.clock.failedAt < 1800000) :
    ((Pool.run calls (Pool.start t) schedule).written.map Prod.snd).Nodup ∧
      ((Pool.run calls (Pool.start t) schedule).written.map Prod.fst).Nodup ∧
      failureCount (Pool.run calls (Pool.start t) schedule).loginAttempts email =
        (Pool.run calls (Pool.start t) schedule).written.length := by
  have hstart : Pool.Counted calls email (Pool.start t) :=
    { length_eq := by simp [Pool.start, hclear]
      le_count := by intro w hw; simp [Pool.start] at hw
      nodup_counts := by simp [Pool.start]
      finished := by intro w hw; simp [Pool.start] at hw
      nodup_requests := by simp [Pool.start]
      stamped := by
        intro a ha hpos
        simp only [Pool.start] at ha
        have ha0 : t.records email = some a := ha
        simp [failureCount, ha0] at hclear
        omega }
  have h := Pool.Counted.run calls email hplain hall hwin schedule (Pool.start t) hstart
  exact ⟨h.nodup_counts, h.nodup_requests, h.length_eq⟩

/-- Witness of the amended C14: three failed requests for `a@x.com` that all
pass the lock check before any of them is answered. -/
theorem concurrent_failures_counted_witness :
    ((Pool.run [raceCall 0 10, raceCall 1 11, raceCall 2 12] (Pool.start LoginAttempts.empty)
        [0, 1, 2, 2, 0, 1]).written.map Prod.snd).Nodup ∧
      ((Pool.run [raceCall 0 10, raceCall 1 11, raceCall 2 12] (Pool.start LoginAttempts.empty)
        [0, 1, 2, 2, 0, 1]).written.map Prod.fst).Nodup ∧
      failureCount (Pool.run [raceCall 0 10, raceCall 1 11, raceCall 2 12]
        (Pool.start LoginAttempts.empty) [0, 1, 2, 2, 0, 1]).loginAttempts "a@x.com" =
        (Pool.run [raceCall 0 10, raceCall 1 11, raceCall 2 12] (Pool.start LoginAttempts.empty)
          [0, 1, 2, 2, 0, 1]).written.length :=
  concurrent_failures_counted [raceCall 0 10, raceCall 1 11, raceCall 2 12] "a@x.com"
    LoginAttempts.empty [0, 1, 2, 2, 0, 1] (by decide) rfl
    (by simp [raceCall, demoVerifier]) (by simp [raceCall])

/-- C15: in every table reached from the empty table by `login` calls run one
after another, every record has `count ≤ 5`, and every record with
`count ≥ 1` has a `lastAttempt`. -/
theorem count_bounded_and_timed {P E : Type} (cs : List (Call P E)) (email : String)
    (a : Attempt) (hrec : run LoginAttempts.empty cs email = some a) :
    a.count ≤ 5 ∧ (a.count ≥ 1 → a.lastAttempt ≠ none) := by
  have step : ∀ (c : Call P E) (t : LoginAttempts),
      (∀ k a, t k = some a → a.count ≤ 5 ∧ (a.count ≥ 1 → a.lastAttempt ≠ none)) →
      ∀ k a, (c.outcome t).loginAttempts k = some a →
        a.count ≤ 5 ∧ (a.count ≥ 1 → a.lastAttempt ≠ none) := by
    intro c t hinv k a hka
    by_cases hk : k = c.email
    · subst hk
      rcases login_own_entry_cases c.checkLoginCredentials t c.email c.password c.clock with
        h | h | ⟨n, hn, h⟩
      · rw [Call.outcome, h] at hka
        exact hinv _ a hka
      · rw [Call.outcome, h] at hka
        cases hka
        simp
      · rw [Call.outcome, h] at hka
        cases hka
        exact ⟨by simp only; omega, by simp⟩
    · rw [Call.outcome, login_other_key _ _ _ _ _ _ hk] at hka
      exact hinv k a hka
  have key : ∀ (cs : List (Call P E)) (t : LoginAttempts),
      (∀ k a, t k = some a → a.count ≤ 5 ∧ (a.count ≥ 1 → a.lastAttempt ≠ none)) →
      ∀ k a, run t cs k = some a → a.count ≤ 5 ∧ (a.count ≥ 1 → a.lastAttempt ≠ none) := by
    intro cs
    induction cs with
    | nil => intro t hinv; simpa [run] using hinv
    | cons c cs ih =>
      intro t hinv
      simp only [run]
      exact ih _ (step c t hinv)
  exact key cs LoginAttempts.empty (fun k a h => by simp [LoginAttempts.empty] at h) email a hrec

/-- Witness of C15: the record of `a@x.com` after `fiveFailures`. -/
theorem count_bounded_and_timed_witness :
    (⟨5, some 120000⟩ : Attempt).count ≤ 5 ∧
      ((⟨5, some 120000⟩ : Attempt).count ≥ 1 →
        (⟨5, some 120000⟩ : Attempt).lastAttempt ≠ none) :=
  count_bounded_and_timed fiveFailures "a@x.com" ⟨5, some 120000⟩
    (by simp [fiveFailures, run, Call.outcome, demoCall, demoVerifier, login, lockCheck,
      afterCheck, recordFailure, LoginAttempts.read, objectPrototypeFunctions,
      LoginAttempts.set, LoginAttempts.empty])

end Authentication

namespace Users

/-- On a database that can be reached, the service answers `true` for every
id, leaves the purchases as they are, and removes from the users the first
document whose `_id` is the id. -/
theorem usersService.deletePurchases_connected (db : Database) (id : String)
    (hup : db.connected = true) :
    usersService.deletePurchases db id =
      ({ db with User := db.User.eraseP (fun d => d._id == id) }, .ok (some true)) := by
  simp [usersService.deletePurchases, usersRepository.getPurchases,
    usersRepository.deletePurchases, purchasesIsTruthy, hup]

/-- C16 does not hold of the code.  On `demoDatabase`: for the id `p1` of the
purchase the service answers `true` and the purchase is still there; for an id
`zz` that no purchase has it answers `true`, not `null`; for the id `u1`, which
no purchase has, it answers `true` and the user `u1` is gone. -/
theorem deletePurchases_deletes_user :
    (usersService.deletePurchases demoDatabase "p1").2 = .ok (some true) ∧
      (usersService.deletePurchases demoDatabase "p1").1.purchases = demoDatabase.purchases ∧
      usersRepository.getPurchases demoDatabase "zz" = .ok none ∧
      (usersService.deletePurchases demoDatabase "zz").2 = .ok (some true) ∧
      usersRepository.getPurchases demoDatabase "u1" = .ok none ∧
      (usersService.deletePurchases demoDatabase "u1").2 = .ok (some true) ∧
      (usersService.deletePurchases demoDatabase "u1").1.User = [] ∧
      demoDatabase.User ≠ [] := by
  simp [usersService.deletePurchases, usersRepository.getPurchases,
    usersRepository.deletePurchases, purchasesIsTruthy, demoDatabase, List.eraseP]

end Users
